import Mathlib

/-!
Shallow embedding of `src/main.py` (AWS Lambda router and handlers for a
virtual try-on shopping backend) together with proofs about the claims of
the specification.

Modelling conventions:
* Parsed JSON / Python values are modelled by the inductive type `Json`.
  Python numbers (`int`/`float`) are modelled by `Rat`; Python `bool` is a
  separate constructor, but — as in Python, where `bool` is a subclass of
  `int` — the numeric checks of the handlers treat booleans as `1`/`0`.
* `json.dumps` is modelled by `jsonPrintC` (with `ensure_ascii` behaviour:
  every character outside `0x20..0x7e` is `\uXXXX`-escaped, astral
  characters as surrogate pairs; default separators `", "` and `": "`).
* `json.loads` is modelled by `jsonParseC`, a fuel-indexed recursive-descent
  parser (number exponents are not modelled).
* `base64.b64encode`/`b64decode` and `str.encode`/`bytes.decode` (UTF-8) are
  modelled by `b64encode`/`b64decode` and `utf8Encode`/`utf8Decode`.
* DynamoDB tables are association lists keyed like the real tables.
* The timestamps returned by successive `get_current_timestamp()` calls, the
  generated `uuid4`, the outcome of the synchronous composite-generation
  step and of presigned-URL issuance are oracle parameters of the handlers.
-/

/-- A JSON / dynamic Python value as produced by `json.loads`. -/
inductive Json where
  | null : Json
  | bool : Bool → Json
  | num : Rat → Json
  | str : String → Json
  | arr : List Json → Json
  | obj : List (String × Json) → Json

namespace Json

/-- Dictionary lookup (`d[k]` on a present key / `k in d`). -/
def lookup (kvs : List (String × Json)) (k : String) : Option Json :=
  (kvs.find? (fun p => p.1 = k)).map (fun p => p.2)

/-- `d.get(k)`-style access on an object; `none` for non-objects. -/
def getKey : Json → String → Option Json
  | obj kvs, k => lookup kvs k
  | _, _ => none

/-- Python `k in d` membership test on an object. -/
def hasKey (j : Json) (k : String) : Bool :=
  (j.getKey k).isSome

/-- `isinstance(v, dict)`. -/
def isDict : Json → Bool
  | obj _ => true
  | _ => false

/-- `isinstance(v, list)`. -/
def isList : Json → Bool
  | arr _ => true
  | _ => false

/-- `isinstance(v, (int, float))` — in Python `bool` is a subclass of
`int`, so booleans satisfy this check. -/
def isNumericPy : Json → Bool
  | num _ => true
  | bool _ => true
  | _ => false

/-- The numeric value used in comparisons; Python compares `True`/`False`
as `1`/`0`. -/
def numVal : Json → Option Rat
  | num q => some q
  | bool b => some (if b then 1 else 0)
  | _ => none

/-- Python truthiness (`if not v`). -/
def truthy : Json → Bool
  | null => false
  | bool b => b
  | num q => q != 0
  | str s => s != ""
  | arr xs => !xs.isEmpty
  | obj kvs => !kvs.isEmpty

/-- Python `str()` of a value, as used by f-string interpolation.  Numbers
are printed via `Rat`'s representation (an abstraction of Python's
`int`/`float` repr). -/
def pyStr : Json → String
  | null => "None"
  | bool b => if b then "True" else "False"
  | num q => if q.den = 1 then toString q.num else toString q
  | str s => s
  | arr _ => "[...]"
  | obj _ => "dict"

end Json

mutual

/-- Python `==` on values (`!=` is its negation).  Booleans compare as
their numeric values (`True == 1`); container equality is element-wise
(key order of objects is compared positionally, an abstraction of dict
equality adequate for the identity tokens compared by the handlers). -/
def pyEq : Json → Json → Bool
  | .null, .null => true
  | .str a, .str b => a == b
  | .arr a, .arr b => pyEqList a b
  | .obj a, .obj b => pyEqPairs a b
  | a, b =>
    match a.numVal, b.numVal with
    | some x, some y => x == y
    | _, _ => false

def pyEqList : List Json → List Json → Bool
  | [], [] => true
  | x :: xs, y :: ys => pyEq x y && pyEqList xs ys
  | _, _ => false

def pyEqPairs : List (String × Json) → List (String × Json) → Bool
  | [], [] => true
  | (k, v) :: xs, (l, w) :: ys => k == l && pyEq v w && pyEqPairs xs ys
  | _, _ => false

end

/-! ### `json.dumps` (with `ensure_ascii=True`, default separators) -/

/-- Lower-case hexadecimal digits. -/
def hexDigits : List Char := "0123456789abcdef".data

def hexDig (n : Nat) : Char := hexDigits.getD n '0'

/-- Four-digit lower-case hex rendering of `n < 0x10000`, as in `\uXXXX`. -/
def toHex4 (n : Nat) : List Char :=
  [hexDig (n / 4096), hexDig (n / 256 % 16), hexDig (n / 16 % 16), hexDig (n % 16)]

/-- How `json.dumps` renders one character inside a string literal:
`"` and `\` get two-character escapes, the five named control characters
get their short escapes, all other characters outside `0x20..0x7e` are
`\uXXXX`-escaped (astral characters as a surrogate pair), and the rest are
emitted verbatim. -/
def escapeChar (c : Char) : List Char :=
  let n := c.toNat
  if n = 34 then ['\\', '"']
  else if n = 92 then ['\\', '\\']
  else if n = 8 then ['\\', 'b']
  else if n = 9 then ['\\', 't']
  else if n = 10 then ['\\', 'n']
  else if n = 12 then ['\\', 'f']
  else if n = 13 then ['\\', 'r']
  else if n < 32 ∨ 126 < n then
    if n < 65536 then '\\' :: 'u' :: toHex4 n
    else ('\\' :: 'u' :: toHex4 (55296 + (n - 65536) / 1024)) ++
         ('\\' :: 'u' :: toHex4 (56320 + (n - 65536) % 1024))
  else [c]

def escList (cs : List Char) : List Char := cs.flatMap escapeChar

/-- A JSON string literal: quote, escaped characters, quote. -/
def printStr (s : String) : List Char := '"' :: (escList s.data ++ ['"'])

/-- Rendering of a number (abstraction of Python's `int`/`float` repr). -/
def numRepr (q : Rat) : String := if q.den = 1 then toString q.num else toString q

mutual

/-- `json.dumps` as a character list; objects and arrays use the default
separators `", "` and `": "`. -/
def jsonPrintC : Json → List Char
  | .null => "null".data
  | .bool true => "true".data
  | .bool false => "false".data
  | .num q => (numRepr q).data
  | .str s => printStr s
  | .arr [] => ['[', ']']
  | .arr (x :: xs) => '[' :: (jsonPrintC x ++ printElems xs ++ [']'])
  | .obj [] => [Char.ofNat 123, Char.ofNat 125]
  | .obj (p :: ps) => Char.ofNat 123 :: (printMember p ++ printMembers ps ++ [Char.ofNat 125])

def printMember : String × Json → List Char
  | (k, v) => printStr k ++ ':' :: ' ' :: jsonPrintC v

def printElems : List Json → List Char
  | [] => []
  | x :: xs => ',' :: ' ' :: (jsonPrintC x ++ printElems xs)

def printMembers : List (String × Json) → List Char
  | [] => []
  | p :: ps => ',' :: ' ' :: (printMember p ++ printMembers ps)

end

/-- `json.dumps` as a `String`. -/
def jsonPrint (j : Json) : String := String.mk (jsonPrintC j)

/-! ### UTF-8 (`str.encode()` / `bytes.decode()`) -/

/-- UTF-8 encoding of one character. -/
def utf8EncodeChar (c : Char) : List Nat :=
  let n := c.toNat
  if n < 128 then [n]
  else if n < 2048 then [192 + n / 64, 128 + n % 64]
  else if n < 65536 then [224 + n / 4096, 128 + n / 64 % 64, 128 + n % 64]
  else [240 + n / 262144, 128 + n / 4096 % 64, 128 + n / 64 % 64, 128 + n % 64]

/-- `str.encode()`: UTF-8 bytes of a character list. -/
def utf8Encode (cs : List Char) : List Nat := cs.flatMap utf8EncodeChar

mutual

/-- `bytes.decode()`: strict UTF-8 decoding (continuation-byte ranges
reject overlong forms and surrogates, as CPython does).  The two-, three-
and four-byte forms are split into helpers. -/
def utf8Decode : List Nat → Option (List Char)
  | [] => some []
  | b :: rest =>
    if b < 128 then (utf8Decode rest).map (Char.ofNat b :: ·)
    else if b < 194 then none
    else if b < 224 then utf8Dec2 b rest
    else if b < 240 then utf8Dec3 b rest
    else if b < 245 then utf8Dec4 b rest
    else none

def utf8Dec2 (b : Nat) : List Nat → Option (List Char)
  | b2 :: rest2 =>
    if 128 ≤ b2 ∧ b2 < 192 then
      (utf8Decode rest2).map (Char.ofNat ((b - 192) * 64 + (b2 - 128)) :: ·)
    else none
  | _ => none

def utf8Dec3 (b : Nat) : List Nat → Option (List Char)
  | b2 :: b3 :: rest2 =>
    if (if b = 224 then 160 else 128) ≤ b2 ∧ b2 ≤ (if b = 237 then 159 else 191) ∧
        128 ≤ b3 ∧ b3 < 192 then
      (utf8Decode rest2).map (Char.ofNat ((b - 224) * 4096 + (b2 - 128) * 64 + (b3 - 128)) :: ·)
    else none
  | _ => none

def utf8Dec4 (b : Nat) : List Nat → Option (List Char)
  | b2 :: b3 :: b4 :: rest2 =>
    if (if b = 240 then 144 else 128) ≤ b2 ∧ b2 ≤ (if b = 244 then 143 else 191) ∧
        128 ≤ b3 ∧ b3 < 192 ∧ 128 ≤ b4 ∧ b4 < 192 then
      (utf8Decode rest2).map
        (Char.ofNat ((b - 240) * 262144 + (b2 - 128) * 4096 + (b3 - 128) * 64 + (b4 - 128)) :: ·)
    else none
  | _ => none

end

/-! ### `base64.b64encode` / `base64.b64decode` -/

def b64Alphabet : List Char :=
  "ABCDEFGHIJKLMNOPQRSTUVWXYZabcdefghijklmnopqrstuvwxyz0123456789+/".data

def b64chr (n : Nat) : Char := b64Alphabet.getD n 'A'

def b64val (c : Char) : Option Nat := b64Alphabet.findIdx? (· == c)

/-- `base64.b64encode` over a byte list: three bytes become four sextet
characters, with `=`-padding for a trailing group of one or two bytes. -/
def b64encode : List Nat → List Char
  | [] => []
  | [a] => [b64chr (a / 4), b64chr (a % 4 * 16), '=', '=']
  | [a, b] => [b64chr (a / 4), b64chr (a % 4 * 16 + b / 16), b64chr (b % 16 * 4), '=']
  | a :: b :: c :: rest =>
    b64chr (a / 4) :: b64chr (a % 4 * 16 + b / 16) ::
      b64chr (b % 16 * 4 + c / 64) :: b64chr (c % 64) :: b64encode rest

/-- Decoding of a cleaned character stream, four characters at a time;
padding is admitted only at the end.  Any other shape fails, matching the
`binascii.Error` raised by `base64.b64decode`. -/
def b64decodeGroups : List Char → Option (List Nat)
  | [] => some []
  | w :: x :: y :: z :: rest =>
    if y = '=' ∧ z = '=' ∧ rest = [] then do
      let vw ← b64val w
      let vx ← b64val x
      pure [vw * 4 + vx / 16]
    else if z = '=' ∧ rest = [] then do
      let vw ← b64val w
      let vx ← b64val x
      let vy ← b64val y
      pure [vw * 4 + vx / 16, vx % 16 * 16 + vy / 4]
    else do
      let vw ← b64val w
      let vx ← b64val x
      let vy ← b64val y
      let vz ← b64val z
      let tail ← b64decodeGroups rest
      pure ((vw * 4 + vx / 16) :: (vx % 16 * 16 + vy / 4) :: (vy % 4 * 64 + vz) :: tail)
  | _ => none

/-- `base64.b64decode` with its default `validate=False` behaviour:
characters outside the alphabet (other than `=`) are discarded before the
length/padding check. -/
def b64decode (cs : List Char) : Option (List Nat) :=
  b64decodeGroups (cs.filter (fun c => (b64val c).isSome || c == '='))

/-! ### `json.loads`

A recursive-descent parser over character lists.  Containers recurse on a
fuel parameter (initialised to more than the input length, which bounds
the recursion of any parse); strings, whose parsing consumes no fuel,
accept the escape forms of the JSON grammar, surrogate pairs included.
Number exponents are not modelled.  A lone surrogate escape — which
CPython accepts, producing a string Lean's `Char` cannot hold — is mapped
through `Char.ofNat` (a modelling artifact on inputs no printer emits). -/

def isWsChar (c : Char) : Bool := c == ' ' || c == '\t' || c == '\n' || c == '\r'

def skipWs : List Char → List Char
  | [] => []
  | c :: rest => if isWsChar c then skipWs rest else c :: rest

/-- The two-character escapes accepted after a backslash. -/
def escTable (c : Char) : Option Char :=
  if c = '"' then some '"'
  else if c = '\\' then some '\\'
  else if c = '/' then some '/'
  else if c = 'b' then some (Char.ofNat 8)
  else if c = 'f' then some (Char.ofNat 12)
  else if c = 'n' then some (Char.ofNat 10)
  else if c = 'r' then some (Char.ofNat 13)
  else if c = 't' then some (Char.ofNat 9)
  else none

def hexVal (c : Char) : Option Nat :=
  let n := c.toNat
  if 48 ≤ n ∧ n ≤ 57 then some (n - 48)
  else if 97 ≤ n ∧ n ≤ 102 then some (n - 87)
  else if 65 ≤ n ∧ n ≤ 70 then some (n - 55)
  else none

def hex4Val (h1 h2 h3 h4 : Char) : Option Nat := do
  let a ← hexVal h1
  let b ← hexVal h2
  let c ← hexVal h3
  let d ← hexVal h4
  pure (a * 4096 + b * 256 + c * 16 + d)

/-- Four hex digits after `\u`: the code point and the remaining input. -/
def parseU : List Char → Option (Nat × List Char)
  | h1 :: h2 :: h3 :: h4 :: rest => (hex4Val h1 h2 h3 h4).map (fun n => (n, rest))
  | _ => none

theorem parseU_length {cs : List Char} {n : Nat} {rest : List Char}
    (h : parseU cs = some (n, rest)) : rest.length + 4 = cs.length := by
  match cs with
  | h1 :: h2 :: h3 :: h4 :: rest2 =>
    simp only [parseU] at h
    cases hv : hex4Val h1 h2 h3 h4 with
    | none => rw [hv] at h; cases h
    | some m =>
      rw [hv] at h
      simp at h
      rw [← h.2]
      simp
  | [] => simp [parseU] at h
  | [a] => simp [parseU] at h
  | [a, b] => simp [parseU] at h
  | [a, b, c] => simp [parseU] at h

/-- Decode the body of a string literal up to its closing quote into raw
code points (`\uXXXX` escapes kept as-is, so surrogate halves may occur),
returning them and the remaining input.  The fuel argument — seeded with
more than the input length, while every step consumes at least one input
character — only bounds the recursion. -/
def parseStrRaw : Nat → List Char → Option (List Nat × List Char)
  | 0, _ => none
  | fuel + 1, cs =>
    match cs with
    | [] => none
    | c :: rest =>
      if c = '"' then some ([], rest)
      else if c = '\\' then
        match rest with
        | [] => none
        | e :: rest2 =>
          if e = 'u' then
            match parseU rest2 with
            | some nr => (parseStrRaw fuel nr.2).map (fun p => (nr.1 :: p.1, p.2))
            | none => none
          else
            match escTable e with
            | some ch => (parseStrRaw fuel rest2).map (fun p => (ch.toNat :: p.1, p.2))
            | none => none
      else if c.toNat < 32 then none
      else (parseStrRaw fuel rest).map (fun p => (c.toNat :: p.1, p.2))

/-- Combine adjacent high/low surrogate pairs (which can only have come
from `\uXXXX` escapes) into the characters they denote, as CPython's
scanner does.  A lone surrogate — accepted by CPython, unrepresentable in
Lean's `Char` — degrades through `Char.ofNat`. -/
def combineSurrogates : List Nat → List Char
  | [] => []
  | h :: rest =>
    match rest with
    | l :: rest2 =>
      if 55296 ≤ h ∧ h ≤ 56319 ∧ 56320 ≤ l ∧ l ≤ 57343 then
        Char.ofNat (65536 + (h - 55296) * 1024 + (l - 56320)) :: combineSurrogates rest2
      else Char.ofNat h :: combineSurrogates (l :: rest2)
    | [] => [Char.ofNat h]

/-- Parse the body of a string literal up to its closing quote, returning
the decoded characters and the remaining input. -/
def parseStrBody (cs : List Char) : Option (List Char × List Char) :=
  (parseStrRaw (cs.length + 1) cs).map (fun p => (combineSurrogates p.1, p.2))

def takeDigits : List Char → List Char × List Char
  | [] => ([], [])
  | c :: rest =>
    if c.isDigit then
      let p := takeDigits rest
      (c :: p.1, p.2)
    else ([], c :: rest)

def digitsVal (ds : List Char) : Nat := ds.foldl (fun a c => a * 10 + (c.toNat - 48)) 0

def parseNumber (cs : List Char) : Option (Json × List Char) :=
  let p : Bool × List Char :=
    match cs with
    | c :: rest => if c = '-' then (true, rest) else (false, cs)
    | [] => (false, [])
  let ds := takeDigits p.2
  if ds.1.isEmpty then none
  else
    let intVal : Rat := (digitsVal ds.1 : Nat)
    match ds.2 with
    | c :: rest =>
      if c = '.' then
        let fs := takeDigits rest
        if fs.1.isEmpty then none
        else
          let q : Rat := intVal + (digitsVal fs.1 : Nat) / ((10 : Rat) ^ fs.1.length)
          some (Json.num (if p.1 then -q else q), fs.2)
      else some (Json.num (if p.1 then -intVal else intVal), ds.2)
    | [] => some (Json.num (if p.1 then -intVal else intVal), [])

/-- Insertion into an object, as `dict` item assignment behaves while the
parser builds an object: an existing key keeps its position and gets the
new value, a new key is appended. -/
def objInsert : List (String × Json) → String → Json → List (String × Json)
  | [], k, v => [(k, v)]
  | (k', v') :: rest, k, v =>
    if k' = k then (k, v) :: rest else (k', v') :: objInsert rest k v

mutual

def parseValue : Nat → List Char → Option (Json × List Char)
  | 0, _ => none
  | fuel + 1, cs =>
    match skipWs cs with
    | [] => none
    | c :: rest =>
      if c = '"' then (parseStrBody rest).map (fun p => (Json.str (String.mk p.1), p.2))
      else if c = Char.ofNat 123 then
        match skipWs rest with
        | c2 :: rest2 =>
          if c2 = Char.ofNat 125 then some (Json.obj [], rest2)
          else parseMembers fuel [] (c2 :: rest2)
        | [] => none
      else if c = '[' then
        match skipWs rest with
        | c2 :: rest2 =>
          if c2 = ']' then some (Json.arr [], rest2)
          else parseElems fuel [] (c2 :: rest2)
        | [] => none
      else if c = 't' then
        match rest with
        | 'r' :: 'u' :: 'e' :: rest2 => some (Json.bool true, rest2)
        | _ => none
      else if c = 'f' then
        match rest with
        | 'a' :: 'l' :: 's' :: 'e' :: rest2 => some (Json.bool false, rest2)
        | _ => none
      else if c = 'n' then
        match rest with
        | 'u' :: 'l' :: 'l' :: rest2 => some (Json.null, rest2)
        | _ => none
      else if c = '-' || c.isDigit then parseNumber (c :: rest)
      else none

/-- Parse the members of an object, positioned at the start of a member. -/
def parseMembers : Nat → List (String × Json) → List Char → Option (Json × List Char)
  | 0, _, _ => none
  | fuel + 1, acc, cs =>
    match skipWs cs with
    | [] => none
    | c :: rest =>
      if c = '"' then
        match parseStrBody rest with
        | none => none
        | some (k, rest2) =>
          match skipWs rest2 with
          | [] => none
          | c2 :: rest3 =>
            if c2 = ':' then
              match parseValue fuel rest3 with
              | none => none
              | some (v, rest4) =>
                let acc2 := objInsert acc (String.mk k) v
                match skipWs rest4 with
                | [] => none
                | c3 :: rest5 =>
                  if c3 = ',' then parseMembers fuel acc2 rest5
                  else if c3 = Char.ofNat 125 then some (Json.obj acc2, rest5)
                  else none
            else none
      else none

/-- Parse the elements of an array, positioned at the start of an element. -/
def parseElems : Nat → List Json → List Char → Option (Json × List Char)
  | 0, _, _ => none
  | fuel + 1, acc, cs =>
    match parseValue fuel cs with
    | none => none
    | some (v, rest) =>
      match skipWs rest with
      | [] => none
      | c :: rest2 =>
        if c = ',' then parseElems fuel (acc ++ [v]) rest2
        else if c = ']' then some (Json.arr (acc ++ [v]), rest2)
        else none

end

/-- `json.loads` on a character list: one value, then only whitespace may
remain ("Extra data" otherwise). -/
def jsonParseC (cs : List Char) : Option Json :=
  match parseValue (cs.length + 4) cs with
  | some (j, rest) => if (skipWs rest).isEmpty then some j else none
  | none => none

/-- `json.loads` on a string. -/
def jsonParse (s : String) : Option Json := jsonParseC s.data

/-! ### The pagination cursor -/

/-- Encoding of a `LastEvaluatedKey` into a `nextCursor`:
`base64.b64encode(json.dumps(key).encode()).decode()`. -/
def encodeCursor (k : Json) : String :=
  String.mk (b64encode (utf8Encode (jsonPrintC k)))

/-- Decoding of an incoming cursor:
`json.loads(base64.b64decode(cursor).decode())`; `none` models the
exception path (any decoding step raising). -/
def decodeCursor (s : String) : Option Json := do
  let bytes ← b64decode s.data
  let chars ← utf8Decode bytes
  jsonParseC chars

/-! ### Response envelope (`create_response` / `create_error_response`) -/

structure HttpResponse where
  statusCode : Nat
  headers : List (String × String)
  body : String
deriving DecidableEq

/-- The fixed default headers of every response. -/
def defaultHeaders : List (String × String) :=
  [("Content-Type", "application/json"),
   ("Access-Control-Allow-Origin", "*"),
   ("Access-Control-Allow-Headers", "Content-Type,Authorization"),
   ("Access-Control-Allow-Methods", "GET,POST,PUT,DELETE,OPTIONS")]

/-- `create_response`: no handler passes extra headers, so the optional
`headers` update is not modelled. -/
def createResponse (statusCode : Nat) (body : Json) : HttpResponse :=
  ⟨statusCode, defaultHeaders, jsonPrint body⟩

/-- `create_error_response`: no caller passes `details`. -/
def createErrorResponse (statusCode : Nat) (errorType message : String) : HttpResponse :=
  createResponse statusCode (Json.obj [("error", .str errorType), ("message", .str message)])

/-! ### Events and identity extraction -/

/-- The API Gateway event.  `httpMethod`, `resource`, `requestContext`,
`body`, `queryStringParameters` and `pathParameters` are the keys the code
reads; `body` is a raw string or `None`, path parameters are strings (the
API Gateway contract), and the authorizer context is an arbitrary
dynamic value. -/
structure Event where
  httpMethod : String
  resource : String
  requestContext : Json
  body : Option String
  queryStringParameters : Json
  pathParameters : List (String × String)

/-- The Python exceptions distinguished by the handlers' `except` arms. -/
inductive PyExc where
  | keyError
  | typeError
  | valueError
deriving DecidableEq

/-- Python subscription `j[k]` by a string key: a `dict` either yields the
value or raises `KeyError`; any non-`dict` raises `TypeError`. -/
def subscriptS : Json → String → Except PyExc Json
  | .obj kvs, k =>
    match Json.lookup kvs k with
    | some v => .ok v
    | none => .error .keyError
  | _, _ => .error .typeError

/-- `get_user_id`: `event['requestContext']['authorizer']['claims']['sub']`,
catching only `KeyError` and re-raising it as `ValueError`; a `TypeError`
from subscripting a non-`dict` propagates. -/
def getUserId (e : Event) : Except PyExc Json :=
  match (subscriptS e.requestContext "authorizer").bind (fun a => subscriptS a "claims")
      |>.bind (fun c => subscriptS c "sub") with
  | .ok v => .ok v
  | .error .keyError => .error .valueError
  | .error err => .error err

/-- `json.loads(event['body'])` inside
`try/except (json.JSONDecodeError, TypeError)`: a `None` body raises
`TypeError`, an unparseable string raises `JSONDecodeError`; both arms
answer `INVALID_JSON`, so failure collapses to `none`. -/
def parseEventBody (b : Option String) : Option Json := b.bind jsonParse

/-- `event.get('queryStringParameters') or {}` followed by `.get(k)`. -/
def queryParam (qp : Json) (k : String) : Option Json :=
  match qp with
  | .obj kvs => Json.lookup kvs k
  | _ => none

/-- Substring search over character lists (Python `needle in haystack` on
strings). -/
def strFindSub (needle : List Char) : List Char → Bool
  | [] => needle.isEmpty
  | c :: rest => needle.isPrefixOf (c :: rest) || strFindSub needle rest

/-- Python `k in v` for a string key: key membership for a dict, substring
search for a string, element membership by `==` for a list; `in` on
`None`, a number or a boolean raises `TypeError`. -/
def pyContains (v : Json) (k : String) : Except PyExc Bool :=
  match v with
  | .obj _ => .ok (v.hasKey k)
  | .str s => .ok (strFindSub k.data s.data)
  | .arr xs => .ok (xs.any (fun e => pyEq (.str k) e))
  | _ => .error .typeError

/-! ### DynamoDB tables -/

/-- A table keyed by a single attribute holding dynamic values
(the profiles table, keyed by `user_id`). -/
def putItemBy (table : List (Json × Json)) (key : Json) (item : Json) : List (Json × Json) :=
  match table with
  | [] => [(key, item)]
  | (k, v) :: rest =>
    if pyEq k key then (key, item) :: rest else (k, v) :: putItemBy rest key item

def getItemBy (table : List (Json × Json)) (key : Json) : Option Json :=
  (table.find? (fun e => pyEq e.1 key)).map (·.2)

/-- The cart-items table: composite key `(user_id, item_key)`, item an
attribute map. -/
def CartTable := List ((Json × String) × Json)

def cartKeyEq (a b : Json × String) : Bool := pyEq a.1 b.1 && a.2 == b.2

def cartGet (table : CartTable) (key : Json × String) : Option Json :=
  (table.find? (fun e => cartKeyEq e.1 key)).map (·.2)

def cartPut : CartTable → (Json × String) → Json → CartTable
  | [], key, item => [(key, item)]
  | (k, v) :: rest, key, item =>
    if cartKeyEq k key then (key, item) :: rest else (k, v) :: cartPut rest key item

/-- One page of a DynamoDB `query`: the items and the (absent on the last
page) `LastEvaluatedKey`. -/
structure QueryResult where
  items : List Json
  lastEvaluatedKey : Option Json

/-- A fit-job record, with the exact attribute set `fit_create_handler`
writes. -/
structure FitRecord where
  fitId : String
  user_id : Json
  items : Json
  mode : String
  status : String
  createdAt : String
  updatedAt : String
  name : Option Json
  body_asset_key : Option Json
  imageUrl : Option String

/-- The fits table, keyed by the `fitId` string. -/
def FitsTable := List (String × FitRecord)

def lookupFit (t : FitsTable) (id : String) : Option FitRecord :=
  (List.find? (fun e => e.1 = id) t).map (·.2)

def putFit : FitsTable → FitRecord → FitsTable
  | [], r => [(r.fitId, r)]
  | (k, v) :: rest, r =>
    if k = r.fitId then (k, r) :: rest else (k, v) :: putFit rest r

/-- The store mutations `fit_create_handler` can issue against the fits
table, in program order. -/
inductive FitsOp where
  | putRec (r : FitRecord)
  | updReady (fitId : String) (imageKey : String) (updatedAt : String)
  | updFailed (fitId : String) (updatedAt : String)

/-- Effect of one mutation.  The two updates mirror the handler's
`update_item` expressions (which it only issues for the key it has just
put, so the create-on-absent corner of `update_item` does not arise). -/
def applyFitOp (t : FitsTable) : FitsOp → FitsTable
  | .putRec r => putFit t r
  | .updReady id key ts =>
    t.map (fun e =>
      if e.1 = id then (e.1, { e.2 with status := "READY", imageUrl := some key, updatedAt := ts })
      else e)
  | .updFailed id ts =>
    t.map (fun e =>
      if e.1 = id then (e.1, { e.2 with status := "FAILED", updatedAt := ts }) else e)

/-! ### `profile_handler` (POST /profile) -/

def profileRequiredFields : List String :=
  ["height_cm", "weight_kg", "chest_cm", "waist_cm", "hips_cm", "inseam_cm"]

/-- The per-field loop: `field not in body` → `MISSING_FIELD`, else
`value = body[field]` is read and checked with
`isinstance(value, (int, float)) and 0 < value <= 300` (booleans are
`int`s in Python, so `True`/`False` enter the range check as `1`/`0`).
Membership on a non-dict body, and subscripting a string or list body,
raise `TypeError`, which the handler's generic arm answers as a 500. -/
def profileFieldError (body : Json) : List String → Except PyExc (Option HttpResponse)
  | [] => .ok none
  | f :: rest =>
    match pyContains body f with
    | .error e => .error e
    | .ok has =>
      if !has then
        .ok (some (createErrorResponse 400 "MISSING_FIELD" ("Required field missing: " ++ f)))
      else
        match subscriptS body f with
        | .error e => .error e
        | .ok v =>
          match v.numVal with
          | none =>
            .ok (some (createErrorResponse 400 "INVALID_VALUE"
              (f ++ " must be a positive number less than 300")))
          | some q =>
            if q ≤ 0 ∨ 300 < q then
              .ok (some (createErrorResponse 400 "INVALID_VALUE"
                (f ++ " must be a positive number less than 300")))
            else profileFieldError body rest

/-- Validation of a profile body, in program order: the six measurement
fields, then presence of `preferred_fit`. -/
def profileValidate (body : Json) : Except PyExc (Option HttpResponse) :=
  match profileFieldError body profileRequiredFields with
  | .error e => .error e
  | .ok (some e) => .ok (some e)
  | .ok none =>
    match pyContains body "preferred_fit" with
    | .error e => .error e
    | .ok has =>
      if has then .ok none
      else .ok (some (createErrorResponse 400 "MISSING_FIELD"
        "Required field missing: preferred_fit"))

/-- The stored profile item: the validated fields copied verbatim,
`updatedAt` stamped, `avatar_key` only when provided. -/
def profileData (sub : Json) (body : Json) (now : String) : Json :=
  Json.obj
    ([("user_id", sub),
      ("height_cm", (body.getKey "height_cm").getD .null),
      ("weight_kg", (body.getKey "weight_kg").getD .null),
      ("chest_cm", (body.getKey "chest_cm").getD .null),
      ("waist_cm", (body.getKey "waist_cm").getD .null),
      ("hips_cm", (body.getKey "hips_cm").getD .null),
      ("inseam_cm", (body.getKey "inseam_cm").getD .null),
      ("preferred_fit", (body.getKey "preferred_fit").getD .null),
      ("updatedAt", .str now)] ++
     (match body.getKey "avatar_key" with
      | some v => [("avatar_key", v)]
      | none => []))

def profileHandler (ev : Event) (now : String) (table : List (Json × Json)) :
    List (Json × Json) × HttpResponse :=
  match getUserId ev with
  | .error .valueError =>
    (table, createErrorResponse 401 "UNAUTHORIZED" "User ID not found in request context")
  | .error _ =>
    (table, createErrorResponse 500 "INTERNAL_ERROR" "An unexpected error occurred")
  | .ok sub =>
    match parseEventBody ev.body with
    | none => (table, createErrorResponse 400 "INVALID_JSON" "Request body must be valid JSON")
    | some body =>
      match profileValidate body with
      | .error _ =>
        (table, createErrorResponse 500 "INTERNAL_ERROR" "An unexpected error occurred")
      | .ok (some e) => (table, e)
      | .ok none =>
        let item := profileData sub body now
        (putItemBy table sub item,
         createResponse 200 (Json.obj [("ok", .bool true), ("profile", item)]))

/-! ### `cart_post_handler` (POST /cart) -/

def cartRequiredFields : List String :=
  ["retailer", "productId", "title", "price_cents", "currency",
   "productUrl", "imageUrl", "selectedSize", "color", "category"]

/-- The membership loop `for field in required_fields: if field not in
body` — the first absent field, or the `TypeError` the membership test
itself raises on a non-dict body. -/
def firstMissingField (body : Json) : List String → Except PyExc (Option String)
  | [] => .ok none
  | f :: rest =>
    match pyContains body f with
    | .error e => .error e
    | .ok true => firstMissingField body rest
    | .ok false => .ok (some f)

/-- Validation of a cart body: the ten fields present, then
`body['price_cents']` read and checked numeric (booleans count, as in
Python) and non-negative; membership or subscript on a non-dict body
raises `TypeError`. -/
def cartValidate (body : Json) : Except PyExc (Option HttpResponse) :=
  match firstMissingField body cartRequiredFields with
  | .error e => .error e
  | .ok (some f) =>
    .ok (some (createErrorResponse 400 "MISSING_FIELD" ("Required field missing: " ++ f)))
  | .ok none =>
    match subscriptS body "price_cents" with
    | .error e => .error e
    | .ok v =>
      match v.numVal with
      | none =>
        .ok (some (createErrorResponse 400 "INVALID_VALUE"
          "price_cents must be a non-negative number"))
      | some q =>
        if q < 0 then
          .ok (some (createErrorResponse 400 "INVALID_VALUE"
            "price_cents must be a non-negative number"))
        else .ok none

/-- The `update_item` of the cart upsert: every submitted field and
`updatedAt` are SET to the new values; `addedAt` is SET to
`if_not_exists(addedAt, :ts)`, i.e. kept when the stored item already has
it and stamped with the same `:ts` otherwise. -/
def cartUpdatedItem (old : Option Json) (sub : Json) (itemKey : String) (body : Json)
    (now : String) : Json :=
  let prev : List (String × Json) :=
    match old with
    | some (.obj kvs) => kvs
    | _ => []
  let setField (kvs : List (String × Json)) (f : String) : List (String × Json) :=
    objInsert kvs f ((body.getKey f).getD .null)
  let base := objInsert (objInsert prev "user_id" sub) "item_key" (.str itemKey)
  let withFields := cartRequiredFields.foldl setField base
  let withUpdated := objInsert withFields "updatedAt" (.str now)
  match Json.lookup prev "addedAt" with
  | some v => Json.obj (objInsert withUpdated "addedAt" v)
  | none => Json.obj (objInsert withUpdated "addedAt" (.str now))

/-- The composite sort key `f"retailer#productId"` of a cart body. -/
def itemKeyOf (b : Json) : String :=
  ((b.getKey "retailer").getD .null).pyStr ++ "#" ++ ((b.getKey "productId").getD .null).pyStr

def cartPostHandler (ev : Event) (now : String) (table : CartTable) :
    CartTable × HttpResponse :=
  match getUserId ev with
  | .error .valueError =>
    (table, createErrorResponse 401 "UNAUTHORIZED" "User ID not found in request context")
  | .error _ =>
    (table, createErrorResponse 500 "INTERNAL_ERROR" "An unexpected error occurred")
  | .ok sub =>
    match parseEventBody ev.body with
    | none => (table, createErrorResponse 400 "INVALID_JSON" "Request body must be valid JSON")
    | some body =>
      match cartValidate body with
      | .error _ =>
        (table, createErrorResponse 500 "INTERNAL_ERROR" "An unexpected error occurred")
      | .ok (some e) => (table, e)
      | .ok none =>
        let itemKey := itemKeyOf body
        let key := (sub, itemKey)
        let item := cartUpdatedItem (cartGet table key) sub itemKey body now
        (cartPut table key item, createResponse 200 (Json.obj [("ok", .bool true)]))

/-! ### `cart_get_handler` (GET /cart)

The DynamoDB `query` for the user's partition — the store collaborator
producing the page and its `LastEvaluatedKey` — is an oracle parameter. -/

def cartGetHandler (query : Option Json → QueryResult) (ev : Event) : HttpResponse :=
  match getUserId ev with
  | .error .valueError =>
    createErrorResponse 401 "UNAUTHORIZED" "User ID not found in request context"
  | .error _ => createErrorResponse 500 "INTERNAL_ERROR" "An unexpected error occurred"
  | .ok _sub =>
    let cursor := queryParam ev.queryStringParameters "cursor"
    let startKey : Except HttpResponse (Option Json) :=
      match cursor with
      | some c =>
        if c.truthy then
          match c with
          | .str s =>
            match decodeCursor s with
            | some k => .ok (some k)
            | none => .error (createErrorResponse 400 "INVALID_CURSOR" "Invalid pagination cursor")
          | _ => .error (createErrorResponse 400 "INVALID_CURSOR" "Invalid pagination cursor")
        else .ok none
      | none => .ok none
    match startKey with
    | .error e => e
    | .ok esk =>
      let r := query esk
      createResponse 200 (Json.obj
        [("items", .arr r.items),
         ("nextCursor",
          match r.lastEvaluatedKey with
          | some k => .str (encodeCursor k)
          | none => .null)])

/-! ### `fit_create_handler` (POST /fit) -/

/-- `'items' in body and isinstance(body['items'], list)` (the source's
negated condition): short-circuits before the subscript when the key is
absent; membership on a non-dict body, and the subscript on a string or
list body, raise `TypeError`. -/
def fitItemsOk (body : Json) : Except PyExc Bool :=
  match pyContains body "items" with
  | .error e => .error e
  | .ok false => .ok false
  | .ok true =>
    match subscriptS body "items" with
    | .error e => .error e
    | .ok v => .ok v.isList

/-- `'mode' in body and body['mode'] in ['MVP_COMPOSITE', 'BEDROCK']`
(the source's negated condition), with the same raising behavior. -/
def fitModeOk (body : Json) : Except PyExc Bool :=
  match pyContains body "mode" with
  | .error e => .error e
  | .ok false => .ok false
  | .ok true =>
    match subscriptS body "mode" with
    | .error e => .error e
    | .ok v => .ok (pyEq v (.str "MVP_COMPOSITE") || pyEq v (.str "BEDROCK"))

/-- Validation of a fit-creation body, in program order: `items` present
and a list (its emptiness is not checked), `mode` equal (by Python `==`)
to one of the two mode strings, every element of `items` a dict carrying
`retailer` and `productId` (`not isinstance(item, dict)` short-circuits,
so the element loop raises nothing).  A `TypeError` from the body checks
propagates to the handler's generic arm. -/
def fitValidate (body : Json) : Except PyExc (Option HttpResponse) :=
  match fitItemsOk body with
  | .error e => .error e
  | .ok itemsOk =>
    if !itemsOk then
      .ok (some (createErrorResponse 400 "MISSING_FIELD" "items array is required"))
    else
      match fitModeOk body with
      | .error e => .error e
      | .ok modeOk =>
        if !modeOk then
          .ok (some (createErrorResponse 400 "INVALID_MODE" "mode must be MVP_COMPOSITE or BEDROCK"))
        else
          let elems :=
            match body.getKey "items" with
            | some (.arr xs) => xs
            | _ => []
          if elems.all (fun item => item.isDict && item.hasKey "retailer" && item.hasKey "productId")
          then .ok none
          else .ok (some (createErrorResponse 400 "INVALID_ITEMS" "Each item must have retailer and productId"))

/-- The validated mode string (validation only accepts a string value). -/
def modeOf (body : Json) : String :=
  match body.getKey "mode" with
  | some (.str m) => m
  | _ => ""

/-- The `fit_data` dict persisted with status `PENDING` (`put_item`). -/
def pendingRecord (sub body : Json) (fitId n1 n2 : String) : FitRecord :=
  { fitId := fitId
    user_id := sub
    items := (body.getKey "items").getD .null
    mode := modeOf body
    status := "PENDING"
    createdAt := n1
    updatedAt := n2
    name := body.getKey "name"
    body_asset_key := body.getKey "body_asset_key"
    imageUrl := none }

/-- The core of `fit_create_handler` after identity extraction and body
parsing: the sequence of fits-table mutations it issues and its response.
`fitId` stands for the generated `uuid4`; `n1`/`n2` for the two
`get_current_timestamp()` calls at creation and `n3` for the one at the
transition; `genOk` for whether the synchronous composite-generation
step (the placeholder try-block) runs to completion.  Validation accepts
only the two mode strings, so the `elif mode == 'MVP_COMPOSITE'` arm is
the `if`'s complement here. -/
def fitCreateRun (sub : Json) (body : Json) (fitId : String) (n1 n2 n3 : String)
    (genOk : Bool) : List FitsOp × HttpResponse :=
  match fitValidate body with
  | .error _ =>
    ([], createErrorResponse 500 "INTERNAL_ERROR" "An unexpected error occurred")
  | .ok (some e) => ([], e)
  | .ok none =>
    let rec0 := pendingRecord sub body fitId n1 n2
    if modeOf body = "BEDROCK" then
      ([.putRec rec0],
       createResponse 201 (Json.obj [("fitId", .str fitId), ("status", .str "PENDING")]))
    else if genOk then
      let genKey := "generated/" ++ sub.pyStr ++ "/" ++ fitId ++ ".jpg"
      ([.putRec rec0, .updReady fitId genKey n3],
       createResponse 201 (Json.obj [("fitId", .str fitId), ("status", .str "READY")]))
    else
      ([.putRec rec0, .updFailed fitId n3],
       createErrorResponse 500 "GENERATION_FAILED" "Failed to generate fit")

def fitCreateHandler (ev : Event) (fitId : String) (n1 n2 n3 : String) (genOk : Bool)
    (table : FitsTable) : FitsTable × HttpResponse :=
  match getUserId ev with
  | .error .valueError =>
    (table, createErrorResponse 401 "UNAUTHORIZED" "User ID not found in request context")
  | .error _ =>
    (table, createErrorResponse 500 "INTERNAL_ERROR" "An unexpected error occurred")
  | .ok sub =>
    match parseEventBody ev.body with
    | none => (table, createErrorResponse 400 "INVALID_JSON" "Request body must be valid JSON")
    | some body =>
      let run := fitCreateRun sub body fitId n1 n2 n3 genOk
      (run.1.foldl applyFitOp table, run.2)

/-! ### `fit_get_handler` (GET /fit/\x7bfitId\x7d) -/

/-- `fit_get_handler`.  `presign` is the S3 collaborator issuing a
download URL for a key (`none` models a `ClientError`, which the handler
swallows).  A missing `fitId` path parameter raises `KeyError`, reaching
the generic `except Exception` arm. -/
def fitGetHandler (presign : String → Option String) (ev : Event) (table : FitsTable) :
    HttpResponse :=
  match getUserId ev with
  | .error .valueError =>
    createErrorResponse 401 "UNAUTHORIZED" "User ID not found in request context"
  | .error _ => createErrorResponse 500 "INTERNAL_ERROR" "An unexpected error occurred"
  | .ok sub =>
    match (ev.pathParameters.find? (fun p => p.1 = "fitId")).map (·.2) with
    | none => createErrorResponse 500 "INTERNAL_ERROR" "An unexpected error occurred"
    | some fid =>
      if fid = "" then createErrorResponse 400 "MISSING_PARAMETER" "fitId is required"
      else
        match lookupFit table fid with
        | none => createErrorResponse 404 "FIT_NOT_FOUND" "Fit not found"
        | some fit =>
          if !pyEq fit.user_id sub then
            createErrorResponse 403 "FORBIDDEN" "Access denied to this fit"
          else
            let imageUrlField : Json :=
              if fit.status = "READY" then
                match fit.imageUrl with
                | some key =>
                  match presign key with
                  | some url => .str url
                  | none => .null
                | none => .null
              else .null
            createResponse 200 (Json.obj
              ([("fitId", .str fit.fitId),
                ("status", .str fit.status),
                ("items", fit.items),
                ("createdAt", .str fit.createdAt),
                ("updatedAt", .str fit.updatedAt),
                ("imageUrl", imageUrlField)] ++
               (match fit.name with
                | some n => [("name", n)]
                | none => [])))

/-! ### `fits_list_handler` (GET /fits)

The GSI query (by `user_id`, newest first, limit 20) is the store
collaborator; its result page is the `queryPage` parameter. -/

def fitSummary (presign : String → Option String) (item : FitRecord) : Json :=
  let thumbnailField : Json :=
    if item.status = "READY" then
      match item.imageUrl with
      | some key =>
        match presign (key.replace ".jpg" "_thumb.jpg") with
        | some url => .str url
        | none => .null
      | none => .null
    else .null
  Json.obj
    ([("fitId", .str item.fitId),
      ("createdAt", .str item.createdAt),
      ("status", .str item.status),
      ("thumbnailUrl", thumbnailField)] ++
     (match item.name with
      | some n => [("name", n)]
      | none => []))

def fitsListHandler (presign : String → Option String) (queryPage : List FitRecord)
    (ev : Event) : HttpResponse :=
  match getUserId ev with
  | .error .valueError =>
    createErrorResponse 401 "UNAUTHORIZED" "User ID not found in request context"
  | .error _ => createErrorResponse 500 "INTERNAL_ERROR" "An unexpected error occurred"
  | .ok _sub =>
    createResponse 200 (Json.obj [("fits", .arr (queryPage.map (fitSummary presign)))])

/-! ### `upload_url_handler` (GET /upload-url) -/

def uploadUrlHandler (uploadPresign : String → Option String) (uniqueId : String)
    (ev : Event) : HttpResponse :=
  match getUserId ev with
  | .error .valueError =>
    createErrorResponse 401 "UNAUTHORIZED" "User ID not found in request context"
  | .error _ => createErrorResponse 500 "INTERNAL_ERROR" "An unexpected error occurred"
  | .ok sub =>
    let imageType := queryParam ev.queryStringParameters "type"
    let typeOk :=
      match imageType with
      | some v =>
        v.truthy &&
          (pyEq v (.str "face") || pyEq v (.str "body") || pyEq v (.str "other"))
      | none => false
    if !typeOk then
      createErrorResponse 400 "INVALID_PARAMETER" "type parameter must be one of: face, body, other"
    else
      let typeStr :=
        match imageType with
        | some (.str t) => t
        | _ => ""
      let objectKey := "uploads/" ++ sub.pyStr ++ "/" ++ typeStr ++ "/" ++ uniqueId ++ ".jpg"
      match uploadPresign objectKey with
      | some url => createResponse 200 (Json.obj [("url", .str url), ("key", .str objectKey)])
      | none => createErrorResponse 500 "S3_ERROR" "Failed to generate upload URL"

/-! ### `token_handler` (POST /token) -/

/-- Outcome of the `urllib3` POST to the Cognito token endpoint. -/
inductive CognitoResult where
  | reply (status : Nat) (data : Json)
  | badJson
  | netError

def tokenHandler (cognito : CognitoResult) (ev : Event) : HttpResponse :=
  match parseEventBody ev.body with
  | none => createErrorResponse 400 "INVALID_JSON" "Request body must be valid JSON"
  | some body =>
    match firstMissingField body ["code", "redirectUri", "codeVerifier"] with
    | .error _ => createErrorResponse 500 "INTERNAL_ERROR" "Token exchange failed"
    | .ok (some f) => createErrorResponse 400 "MISSING_FIELD" ("Required field missing: " ++ f)
    | .ok none =>
      match cognito with
      | .reply status data => createResponse (if status = 200 then 200 else status) data
      | .badJson => createErrorResponse 500 "COGNITO_ERROR" "Invalid response from Cognito"
      | .netError => createErrorResponse 500 "INTERNAL_ERROR" "Token exchange failed"

/-! ### `lambda_handler` — the router -/

/-- The process-wide collaborators and per-request oracles the handlers
need: the three tables, the cart-partition query, the S3 presigners, the
fits GSI page, the Cognito exchange outcome, the generated ids and the
timestamp sequence. -/
structure Ctx where
  profiles : List (Json × Json)
  cart : CartTable
  fits : FitsTable
  cartQuery : Option Json → QueryResult
  presign : String → Option String
  uploadPresign : String → Option String
  fitsPage : List FitRecord
  cognito : CognitoResult
  freshId : String
  t1 : String
  t2 : String
  t3 : String
  genOk : Bool

/-- `lambda_handler`: OPTIONS preflight short-circuits to a 204 with a
serialized empty JSON object; otherwise exactly eight (method, resource)
pairs dispatch, and anything else is a 404. -/
def lambdaHandler (ctx : Ctx) (ev : Event) : Ctx × HttpResponse :=
  if ev.httpMethod = "OPTIONS" then
    (ctx, createResponse 204 (Json.obj []))
  else if ev.resource = "/upload-url" ∧ ev.httpMethod = "GET" then
    (ctx, uploadUrlHandler ctx.uploadPresign ctx.freshId ev)
  else if ev.resource = "/profile" ∧ ev.httpMethod = "POST" then
    let r := profileHandler ev ctx.t1 ctx.profiles
    ({ ctx with profiles := r.1 }, r.2)
  else if ev.resource = "/cart" ∧ ev.httpMethod = "POST" then
    let r := cartPostHandler ev ctx.t1 ctx.cart
    ({ ctx with cart := r.1 }, r.2)
  else if ev.resource = "/cart" ∧ ev.httpMethod = "GET" then
    (ctx, cartGetHandler ctx.cartQuery ev)
  else if ev.resource = "/fit" ∧ ev.httpMethod = "POST" then
    let r := fitCreateHandler ev ctx.freshId ctx.t1 ctx.t2 ctx.t3 ctx.genOk ctx.fits
    ({ ctx with fits := r.1 }, r.2)
  else if ev.resource = "/fit/\x7bfitId\x7d" ∧ ev.httpMethod = "GET" then
    (ctx, fitGetHandler ctx.presign ev ctx.fits)
  else if ev.resource = "/fits" ∧ ev.httpMethod = "GET" then
    (ctx, fitsListHandler ctx.presign ctx.fitsPage ev)
  else if ev.resource = "/token" ∧ ev.httpMethod = "POST" then
    (ctx, tokenHandler ctx.cognito ev)
  else
    (ctx, createErrorResponse 404 "NOT_FOUND" "The requested resource was not found")

/-! ## Helper lemmas -/

mutual

theorem pyEq_refl : ∀ j : Json, pyEq j j = true
  | .null => rfl
  | .bool b => by cases b <;> simp [pyEq, Json.numVal]
  | .num q => by simp [pyEq, Json.numVal]
  | .str s => by simp [pyEq]
  | .arr xs => by simpa [pyEq] using pyEqList_refl xs
  | .obj kvs => by simpa [pyEq] using pyEqPairs_refl kvs

theorem pyEqList_refl : ∀ xs : List Json, pyEqList xs xs = true
  | [] => rfl
  | x :: xs => by simp [pyEqList, pyEq_refl x, pyEqList_refl xs]

theorem pyEqPairs_refl : ∀ kvs : List (String × Json), pyEqPairs kvs kvs = true
  | [] => rfl
  | (k, v) :: kvs => by simp [pyEqPairs, pyEq_refl v, pyEqPairs_refl kvs]

end


theorem lookupFit_cons (k : String) (v : FitRecord) (rest : FitsTable) (id : String) :
    lookupFit ((k, v) :: rest) id = if k = id then some v else lookupFit rest id := by
  by_cases h : k = id <;> simp [lookupFit, List.find?, h]

theorem lookupFit_putFit (t : FitsTable) (r : FitRecord) (id : String) :
    lookupFit (putFit t r) id = if id = r.fitId then some r else lookupFit t id := by
  induction t with
  | nil =>
    by_cases h : id = r.fitId
    · subst h; simp [putFit, lookupFit_cons]
    · have h' : ¬(r.fitId = id) := fun hh => h hh.symm
      simp [putFit, lookupFit_cons, h, h', lookupFit, List.find?]
  | cons e rest ih =>
    obtain ⟨k, v⟩ := e
    simp only [putFit]
    by_cases hk : k = r.fitId
    · rw [if_pos hk]
      by_cases h : id = r.fitId
      · have hk2 : k = id := by rw [hk, h]
        simp [lookupFit_cons, hk2, h]
      · have hk2 : ¬(k = id) := fun hh => h (by rw [← hh, hk])
        simp [lookupFit_cons, hk2, h]
    · rw [if_neg hk]
      by_cases h2 : k = id
      · have hne : ¬(id = r.fitId) := fun hh => hk (by rw [h2, hh])
        simp [lookupFit_cons, h2, hne]
      · simp [lookupFit_cons, h2, ih]

theorem lookupFit_updReady (t : FitsTable) (i key ts : String) (id : String) :
    lookupFit (applyFitOp t (.updReady i key ts)) id =
      (lookupFit t id).map (fun r =>
        if id = i then { r with status := "READY", imageUrl := some key, updatedAt := ts }
        else r) := by
  induction t with
  | nil => simp [applyFitOp, lookupFit, List.find?]
  | cons e rest ih =>
    obtain ⟨k, v⟩ := e
    have hstep : applyFitOp ((k, v) :: rest) (.updReady i key ts) =
        (k, if k = i then { v with status := "READY", imageUrl := some key, updatedAt := ts }
            else v) :: applyFitOp rest (.updReady i key ts) := by
      by_cases hk : k = i <;> simp [applyFitOp, hk]
    rw [hstep]
    by_cases h2 : k = id
    · by_cases hk : k = i
      · have : id = i := by rw [← h2, hk]
        simp [lookupFit_cons, h2, hk, this]
      · have : ¬(id = i) := fun hh => hk (by rw [h2, hh])
        simp [lookupFit_cons, h2, hk, this]
    · simp [lookupFit_cons, h2, ih]

theorem lookupFit_updFailed (t : FitsTable) (i ts : String) (id : String) :
    lookupFit (applyFitOp t (.updFailed i ts)) id =
      (lookupFit t id).map (fun r =>
        if id = i then { r with status := "FAILED", updatedAt := ts } else r) := by
  induction t with
  | nil => simp [applyFitOp, lookupFit, List.find?]
  | cons e rest ih =>
    obtain ⟨k, v⟩ := e
    have hstep : applyFitOp ((k, v) :: rest) (.updFailed i ts) =
        (k, if k = i then { v with status := "FAILED", updatedAt := ts } else v) ::
          applyFitOp rest (.updFailed i ts) := by
      by_cases hk : k = i <;> simp [applyFitOp, hk]
    rw [hstep]
    by_cases h2 : k = id
    · by_cases hk : k = i
      · have : id = i := by rw [← h2, hk]
        simp [lookupFit_cons, h2, hk, this]
      · have : ¬(id = i) := fun hh => hk (by rw [h2, hh])
        simp [lookupFit_cons, h2, hk, this]
    · simp [lookupFit_cons, h2, ih]

/-! ## Witness fixtures -/

/-- A request context carrying the verified `sub` claim. -/
def wAuthCtx (u : String) : Json :=
  Json.obj [("authorizer", Json.obj [("claims", Json.obj [("sub", Json.str u)])])]

def mkEvent (method resource : String) (rc : Json) (b : Option String) (qp : Json)
    (pp : List (String × String)) : Event :=
  { httpMethod := method, resource := resource, requestContext := rc, body := b,
    queryStringParameters := qp, pathParameters := pp }

def w4Event : Event :=
  mkEvent "GET" "/fit/id" (wAuthCtx "user-a") none Json.null [("fitId", "F1")]

def w4Record : FitRecord :=
  { fitId := "F1", user_id := .str "user-b", items := .arr [], mode := "MVP_COMPOSITE",
    status := "READY", createdAt := "T0", updatedAt := "T0", name := none,
    body_asset_key := none, imageUrl := some "generated/user-b/F1.jpg" }

/-! ## Claim C4 -/

/-- C4: for an authenticated fit retrieval with a non-empty `fitId` path
parameter, a missing record yields `FIT_NOT_FOUND` (404) and never
`FORBIDDEN`, while an existing record owned by a different user — whatever
its status, `READY` included — yields `FORBIDDEN` (403): the existence
check precedes the ownership check. -/
theorem fit_get_not_found_before_forbidden
    (presign : String → Option String) (ev : Event) (table : FitsTable)
    (sub : Json) (fid : String)
    (hauth : getUserId ev = .ok sub)
    (hfid : (ev.pathParameters.find? (fun p => p.1 = "fitId")).map (fun p => p.2) = some fid)
    (hne : fid ≠ "") :
    (lookupFit table fid = none →
      fitGetHandler presign ev table = createErrorResponse 404 "FIT_NOT_FOUND" "Fit not found" ∧
      fitGetHandler presign ev table ≠
        createErrorResponse 403 "FORBIDDEN" "Access denied to this fit") ∧
    (∀ r, lookupFit table fid = some r → pyEq r.user_id sub = false →
      fitGetHandler presign ev table =
        createErrorResponse 403 "FORBIDDEN" "Access denied to this fit") := by
  constructor
  · intro h
    have h404 : fitGetHandler presign ev table =
        createErrorResponse 404 "FIT_NOT_FOUND" "Fit not found" := by
      simp [fitGetHandler, hauth, hfid, hne, h]
    refine ⟨h404, ?_⟩
    rw [h404]
    intro heq
    have := congrArg HttpResponse.statusCode heq
    simp [createErrorResponse, createResponse] at this
  · intro r hr howner
    simp [fitGetHandler, hauth, hfid, hne, hr, howner]

theorem fit_get_not_found_before_forbidden_witness :
    fitGetHandler (fun _ => none) w4Event [] =
      createErrorResponse 404 "FIT_NOT_FOUND" "Fit not found" ∧
    fitGetHandler (fun _ => none) w4Event [("F1", w4Record)] =
      createErrorResponse 403 "FORBIDDEN" "Access denied to this fit" :=
  ⟨((fit_get_not_found_before_forbidden (fun _ => none) w4Event [] (Json.str "user-a") "F1"
      rfl rfl (by decide)).1 rfl).1,
   (fit_get_not_found_before_forbidden (fun _ => none) w4Event [("F1", w4Record)]
      (Json.str "user-a") "F1" rfl rfl (by decide)).2 w4Record rfl rfl⟩

/-! ## Claim C8 -/

def w8Ctx : Ctx :=
  { profiles := [], cart := [], fits := [], cartQuery := fun _ => ⟨[], none⟩,
    presign := fun _ => none, uploadPresign := fun _ => none, fitsPage := [],
    cognito := .netError, freshId := "ID", t1 := "T1", t2 := "T2", t3 := "T3", genOk := true }

def w8Event : Event := mkEvent "OPTIONS" "/anything" (wAuthCtx "user-a") none Json.null []

/-- C8 (amended): an OPTIONS request on any route is answered by the
router with HTTP 204, the standard cross-origin headers and a body that is
the serialized empty JSON object (not the empty string), without
dispatching to any domain handler (the result is this constant for every
context). -/
theorem options_preflight_amended (ctx : Ctx) (ev : Event) (h : ev.httpMethod = "OPTIONS") :
    lambdaHandler ctx ev = (ctx, createResponse 204 (Json.obj [])) ∧
    (lambdaHandler ctx ev).2.statusCode = 204 ∧
    (lambdaHandler ctx ev).2.headers = defaultHeaders ∧
    (lambdaHandler ctx ev).2.body = jsonPrint (Json.obj []) := by
  have h1 : lambdaHandler ctx ev = (ctx, createResponse 204 (Json.obj [])) := by
    simp [lambdaHandler, h]
  exact ⟨h1, by rw [h1]; rfl, by rw [h1]; rfl, by rw [h1]; rfl⟩

theorem options_preflight_amended_witness :
    lambdaHandler w8Ctx w8Event = (w8Ctx, createResponse 204 (Json.obj [])) :=
  (options_preflight_amended w8Ctx w8Event rfl).1

/-- C8 as stated is false: the OPTIONS body is `json.dumps(\x7b\x7d)`,
the two-character brace string, not an empty body. -/
theorem options_body_not_empty :
    (lambdaHandler w8Ctx w8Event).2.statusCode = 204 ∧
    (lambdaHandler w8Ctx w8Event).2.body ≠ "" :=
  ⟨rfl, by decide⟩

/-! ## Claim C7 -/

/-- C7 (amended): when the request context lacks a key along the verified
claim path `requestContext.authorizer.claims.sub` (every traversed prefix
being an object), identity extraction fails — `KeyError`, re-raised as
`ValueError` — and every authenticated handler answers `UNAUTHORIZED`
(HTTP 401). -/
theorem unauthorized_on_missing_claim_path
    (ev : Event) (now : String) (ptable : List (Json × Json)) (ctable : CartTable)
    (q : Option Json → QueryResult) (fid n1 n2 n3 : String) (g : Bool)
    (ftable : FitsTable) (pr : String → Option String) (page : List FitRecord)
    (up : String → Option String) (uid : String)
    (hchain : ((subscriptS ev.requestContext "authorizer").bind
        (fun a => subscriptS a "claims")).bind (fun c => subscriptS c "sub") =
        .error .keyError) :
    getUserId ev = .error .valueError ∧
    profileHandler ev now ptable =
      (ptable, createErrorResponse 401 "UNAUTHORIZED" "User ID not found in request context") ∧
    cartPostHandler ev now ctable =
      (ctable, createErrorResponse 401 "UNAUTHORIZED" "User ID not found in request context") ∧
    cartGetHandler q ev =
      createErrorResponse 401 "UNAUTHORIZED" "User ID not found in request context" ∧
    fitCreateHandler ev fid n1 n2 n3 g ftable =
      (ftable, createErrorResponse 401 "UNAUTHORIZED" "User ID not found in request context") ∧
    fitGetHandler pr ev ftable =
      createErrorResponse 401 "UNAUTHORIZED" "User ID not found in request context" ∧
    fitsListHandler pr page ev =
      createErrorResponse 401 "UNAUTHORIZED" "User ID not found in request context" ∧
    uploadUrlHandler up uid ev =
      createErrorResponse 401 "UNAUTHORIZED" "User ID not found in request context" := by
  have hu : getUserId ev = .error .valueError := by
    simp [getUserId, hchain]
  exact ⟨hu, by simp [profileHandler, hu], by simp [cartPostHandler, hu],
    by simp [cartGetHandler, hu], by simp [fitCreateHandler, hu],
    by simp [fitGetHandler, hu], by simp [fitsListHandler, hu],
    by simp [uploadUrlHandler, hu]⟩

def w7Event : Event := mkEvent "POST" "/profile" (Json.obj []) none Json.null []

theorem unauthorized_on_missing_claim_path_witness :
    getUserId w7Event = .error .valueError ∧
    profileHandler w7Event "T1" [] =
      ([], createErrorResponse 401 "UNAUTHORIZED" "User ID not found in request context") := by
  have h := unauthorized_on_missing_claim_path w7Event "T1" [] [] (fun _ => ⟨[], none⟩)
    "F" "T1" "T2" "T3" true [] (fun _ => none) [] (fun _ => none) "U" rfl
  exact ⟨h.1, h.2.1⟩

def w7BadEvent : Event :=
  mkEvent "GET" "/fit/id" (Json.obj [("authorizer", Json.str "not-a-dict")]) none Json.null
    [("fitId", "F1")]

/-- C7 as stated is false for a malformed (rather than absent) claim path:
subscripting the string under `authorizer` raises `TypeError`, which
`get_user_id` does not catch, so the handler's generic `except` arm
answers `INTERNAL_ERROR` (HTTP 500), not 401. -/
theorem malformed_authorizer_internal_error :
    fitGetHandler (fun _ => none) w7BadEvent [] =
      createErrorResponse 500 "INTERNAL_ERROR" "An unexpected error occurred" ∧
    (fitGetHandler (fun _ => none) w7BadEvent []).statusCode ≠ 401 :=
  ⟨rfl, by decide⟩

/-! ## Claim C10 -/

/-- C10: in profile validation, a JSON boolean `true` in a measurement
field passes Python's `isinstance(value, (int, float))` check (a `bool`
is an `int`) with value `1 ∈ (0, 300]` and is stored verbatim, while
`false` — value `0` — fails the `value <= 0` bound and yields
`INVALID_VALUE`. -/
theorem profile_boolean_measurement
    (ev : Event) (sub body : Json) (table : List (Json × Json)) (now : String)
    (hauth : getUserId ev = .ok sub)
    (hbody : parseEventBody ev.body = some body) :
    (Json.isNumericPy (Json.bool true) = true ∧ Json.numVal (Json.bool true) = some 1) ∧
    (body.getKey "height_cm" = some (Json.bool true) → profileValidate body = .ok none →
      (profileHandler ev now table).1 = putItemBy table sub (profileData sub body now) ∧
      (profileData sub body now).getKey "height_cm" = some (Json.bool true) ∧
      (profileHandler ev now table).2.statusCode = 200) ∧
    (body.getKey "height_cm" = some (Json.bool false) →
      profileHandler ev now table =
        (table, createErrorResponse 400 "INVALID_VALUE"
          "height_cm must be a positive number less than 300")) := by
  refine ⟨⟨rfl, rfl⟩, ?_, ?_⟩
  · intro htrue hvalid
    refine ⟨?_, ?_, ?_⟩
    · simp [profileHandler, hauth, hbody, hvalid]
    · have hgen : (profileData sub body now).getKey "height_cm" =
          some ((body.getKey "height_cm").getD Json.null) := by
        simp [profileData, Json.getKey, Json.lookup, List.find?]
      rw [hgen, htrue]; rfl
    · simp [profileHandler, hauth, hbody, hvalid, createResponse]
  · intro hfalse
    obtain ⟨kvs, rfl⟩ : ∃ kvs, body = Json.obj kvs := by
      cases body <;> simp [Json.getKey] at hfalse ⊢
    simp only [Json.getKey] at hfalse
    have hval : profileValidate (Json.obj kvs) =
        .ok (some (createErrorResponse 400 "INVALID_VALUE"
          "height_cm must be a positive number less than 300")) := by
      simp [profileValidate, profileFieldError, profileRequiredFields, pyContains,
        Json.hasKey, Json.getKey, subscriptS, hfalse, Json.numVal]
    simp [profileHandler, hauth, hbody, hval]

def w10Body : String :=
  "\x7b\"height_cm\": true, \"weight_kg\": 70, \"chest_cm\": 90, \"waist_cm\": 80, \"hips_cm\": 95, \"inseam_cm\": 78, \"preferred_fit\": \"slim\"\x7d"

def w10FalseBody : String :=
  "\x7b\"height_cm\": false, \"weight_kg\": 70, \"chest_cm\": 90, \"waist_cm\": 80, \"hips_cm\": 95, \"inseam_cm\": 78, \"preferred_fit\": \"slim\"\x7d"

def w10Event : Event := mkEvent "POST" "/profile" (wAuthCtx "user-a") (some w10Body) Json.null []

def w10FalseEvent : Event :=
  mkEvent "POST" "/profile" (wAuthCtx "user-a") (some w10FalseBody) Json.null []

def w10Json : Json := (jsonParse w10Body).getD .null

def w10FalseJson : Json := (jsonParse w10FalseBody).getD .null

set_option maxRecDepth 100000 in
theorem profile_boolean_measurement_witness :
    (profileHandler w10Event "T1" []).2.statusCode = 200 ∧
    (profileData (Json.str "user-a") w10Json "T1").getKey "height_cm" = some (Json.bool true) ∧
    profileHandler w10FalseEvent "T1" [] =
      ([], createErrorResponse 400 "INVALID_VALUE"
        "height_cm must be a positive number less than 300") := by
  have ht := (profile_boolean_measurement w10Event (Json.str "user-a") w10Json [] "T1"
    rfl rfl).2.1 rfl rfl
  have hf := (profile_boolean_measurement w10FalseEvent (Json.str "user-a") w10FalseJson [] "T1"
    rfl rfl).2.2 rfl
  exact ⟨ht.2.2, ht.2.1, hf⟩

/-! ## Claim C6 -/

/-- Spec-side reading (amended) of one measurement check: the field is
present and its value is a number or boolean whose numeric value lies in
`(0, 300]`. -/
def specMeasurementOk (body : Json) (f : String) : Bool :=
  match body.getKey f with
  | some v =>
    match v.numVal with
    | some q => decide (0 < q) && decide (q ≤ 300)
    | none => false
  | none => false

/-- Spec-side reading (amended) of profile acceptance: every required
measurement passes `specMeasurementOk` and `preferred_fit` is present. -/
def specProfileAccept (body : Json) : Bool :=
  profileRequiredFields.all (specMeasurementOk body) && body.hasKey "preferred_fit"

theorem profileFieldError_ok_none_iff (body : Json) :
    ∀ fs : List String,
      profileFieldError body fs = .ok none ↔ fs.all (specMeasurementOk body) = true := by
  intro fs
  induction fs with
  | nil => simp [profileFieldError]
  | cons f rest ih =>
    simp only [List.all_cons, Bool.and_eq_true]
    cases body with
    | null => simp [profileFieldError, pyContains, specMeasurementOk, Json.getKey]
    | bool b => simp [profileFieldError, pyContains, specMeasurementOk, Json.getKey]
    | num q => simp [profileFieldError, pyContains, specMeasurementOk, Json.getKey]
    | str s =>
      by_cases hin : strFindSub f.data s.data <;>
        simp [profileFieldError, pyContains, subscriptS, specMeasurementOk, Json.getKey, hin]
    | arr xs =>
      by_cases hin : xs.any (fun e => pyEq (.str f) e) <;>
        simp [profileFieldError, pyContains, subscriptS, specMeasurementOk, Json.getKey, hin]
    | obj kvs =>
      cases hk : Json.lookup kvs f with
      | none =>
        simp [profileFieldError, pyContains, Json.hasKey, Json.getKey, specMeasurementOk, hk]
      | some v =>
        cases hv : v.numVal with
        | none =>
          simp [profileFieldError, pyContains, Json.hasKey, Json.getKey, subscriptS,
            specMeasurementOk, hk, hv]
        | some q =>
          by_cases hq : q ≤ 0 ∨ 300 < q
          · have hnot : ¬(0 < q ∧ q ≤ 300) := by
              rcases hq with h | h
              · exact fun hc => absurd hc.1 (not_lt.mpr h)
              · exact fun hc => absurd h (not_lt.mpr hc.2)
            simp [profileFieldError, pyContains, Json.hasKey, Json.getKey, subscriptS,
              specMeasurementOk, hk, hv, hq]
            intro h1 h2
            exact absurd ⟨h1, h2⟩ hnot
          · push_neg at hq
            have hcond : ¬(q ≤ 0 ∨ 300 < q) := by
              intro hc
              rcases hc with h | h
              · exact absurd h (not_le.mpr hq.1)
              · exact absurd h (not_lt.mpr hq.2)
            have hspec : specMeasurementOk (Json.obj kvs) f = true := by
              simp [specMeasurementOk, Json.getKey, hk, hv, hq.1, hq.2]
            have hstep : profileFieldError (Json.obj kvs) (f :: rest) =
                profileFieldError (Json.obj kvs) rest := by
              simp [profileFieldError, pyContains, Json.hasKey, Json.getKey, subscriptS,
                hk, hv, if_neg hcond]
            rw [hstep, ih]
            simp [hspec]

theorem profileFieldError_some_shape (body : Json) :
    ∀ (fs : List String) (e : HttpResponse), profileFieldError body fs = .ok (some e) →
      ∃ f, f ∈ fs ∧
        (e = createErrorResponse 400 "MISSING_FIELD" ("Required field missing: " ++ f) ∨
         e = createErrorResponse 400 "INVALID_VALUE"
           (f ++ " must be a positive number less than 300")) := by
  intro fs
  induction fs with
  | nil => intro e he; simp [profileFieldError] at he
  | cons f rest ih =>
    intro e he
    cases hc : pyContains body f with
    | error ex => simp [profileFieldError, hc] at he
    | ok has =>
      cases has with
      | false =>
        simp [profileFieldError, hc] at he
        exact ⟨f, List.mem_cons_self f rest, Or.inl he.symm⟩
      | true =>
        cases hs : subscriptS body f with
        | error ex => simp [profileFieldError, hc, hs] at he
        | ok v =>
          cases hv : v.numVal with
          | none =>
            simp [profileFieldError, hc, hs, hv] at he
            exact ⟨f, List.mem_cons_self f rest, Or.inr he.symm⟩
          | some q =>
            by_cases hq : q ≤ 0 ∨ 300 < q
            · simp [profileFieldError, hc, hs, hv, hq] at he
              exact ⟨f, List.mem_cons_self f rest, Or.inr he.symm⟩
            · simp only [profileFieldError, hc, hs, hv, if_neg hq] at he
              obtain ⟨g, hg, hor⟩ := ih e he
              exact ⟨g, List.mem_cons_of_mem f hg, hor⟩

/-- C6 (amended): a profile submission whose body is an object fails
validation — with the corresponding `MISSING_FIELD`/`INVALID_VALUE` error
(HTTP 400) and no store write — exactly when some required measurement is
missing, is neither a number nor a boolean, or has numeric value (booleans
counting as 1/0) outside `(0, 300]`, or `preferred_fit` is absent;
otherwise the record is stored as a full replace keyed by the caller's
identity.  A body on which the membership or subscript checks themselves
raise `TypeError` — always the case for a `null`, boolean or number body,
such as the reachable request body `null` — is answered by the handler's
generic arm as `INTERNAL_ERROR` (HTTP 500), again with no write. -/
theorem profile_validation_amended
    (ev : Event) (sub body : Json) (table : List (Json × Json)) (now : String)
    (hauth : getUserId ev = .ok sub)
    (hbody : parseEventBody ev.body = some body) :
    (profileValidate body = .ok none ↔ specProfileAccept body = true) ∧
    (∀ e, profileValidate body = .ok (some e) →
      profileHandler ev now table = (table, e) ∧
      ∃ f, f ∈ "preferred_fit" :: profileRequiredFields ∧
        (e = createErrorResponse 400 "MISSING_FIELD" ("Required field missing: " ++ f) ∨
         e = createErrorResponse 400 "INVALID_VALUE"
           (f ++ " must be a positive number less than 300"))) ∧
    (∀ x, profileValidate body = .error x →
      profileHandler ev now table =
        (table, createErrorResponse 500 "INTERNAL_ERROR" "An unexpected error occurred")) ∧
    profileValidate Json.null = .error .typeError ∧
    (profileValidate body = .ok none →
      profileHandler ev now table =
        (putItemBy table sub (profileData sub body now),
         createResponse 200
           (Json.obj [("ok", .bool true), ("profile", profileData sub body now)]))) := by
  refine ⟨?_, ?_, ?_, rfl, ?_⟩
  · cases hfe : profileFieldError body profileRequiredFields with
    | error ex =>
      have hall : ¬(profileRequiredFields.all (specMeasurementOk body) = true) := by
        rw [← profileFieldError_ok_none_iff]
        simp [hfe]
      simp [profileValidate, specProfileAccept, hfe, hall]
    | ok o =>
      cases o with
      | some e =>
        have hall : ¬(profileRequiredFields.all (specMeasurementOk body) = true) := by
          rw [← profileFieldError_ok_none_iff]
          simp [hfe]
        simp [profileValidate, specProfileAccept, hfe, hall]
      | none =>
        have hall := (profileFieldError_ok_none_iff body profileRequiredFields).mp hfe
        have h1 : specMeasurementOk body "height_cm" = true := by
          have h := hall
          simp only [profileRequiredFields, List.all_cons, Bool.and_eq_true] at h
          exact h.1
        obtain ⟨kvs, rfl⟩ : ∃ kvs, body = Json.obj kvs := by
          cases body with
          | obj kvs => exact ⟨kvs, rfl⟩
          | null => simp [specMeasurementOk, Json.getKey] at h1
          | bool b => simp [specMeasurementOk, Json.getKey] at h1
          | num q => simp [specMeasurementOk, Json.getKey] at h1
          | str sx => simp [specMeasurementOk, Json.getKey] at h1
          | arr xs => simp [specMeasurementOk, Json.getKey] at h1
        by_cases hp : (Json.obj kvs).hasKey "preferred_fit" <;>
          simp [profileValidate, specProfileAccept, pyContains, hfe, hp, hall]
  · intro e he
    refine ⟨by simp [profileHandler, hauth, hbody, he], ?_⟩
    unfold profileValidate at he
    cases hfe : profileFieldError body profileRequiredFields with
    | error ex => rw [hfe] at he; simp at he
    | ok o =>
      cases o with
      | some ep =>
        rw [hfe] at he
        simp at he
        obtain ⟨g, hg, hor⟩ := profileFieldError_some_shape body profileRequiredFields e
          (by rw [hfe, he])
        exact ⟨g, List.mem_cons_of_mem _ hg, hor⟩
      | none =>
        rw [hfe] at he
        cases hc : pyContains body "preferred_fit" with
        | error ex => rw [hc] at he; simp at he
        | ok has =>
          rw [hc] at he
          cases has with
          | true => simp at he
          | false =>
            simp at he
            exact ⟨"preferred_fit", List.mem_cons_self _ _, Or.inl he.symm⟩
  · intro x hx
    simp [profileHandler, hauth, hbody, hx]
  · intro hnone
    simp [profileHandler, hauth, hbody, hnone]

set_option maxRecDepth 100000 in
/-- C6 as stated is false: a submission whose `height_cm` carries the
non-numeric JSON boolean `true` is accepted — HTTP 200 and a record
written — rather than rejected with `INVALID_VALUE`. -/
theorem profile_accepts_boolean_true :
    w10Json.getKey "height_cm" = some (Json.bool true) ∧
    (profileHandler w10Event "T1" []).2.statusCode = 200 ∧
    (profileHandler w10Event "T1" []).1.length = 1 :=
  ⟨rfl, rfl, rfl⟩

def w6BadBody : String := "\x7b\"height_cm\": 400\x7d"

def w6BadEvent : Event := mkEvent "POST" "/profile" (wAuthCtx "user-a") (some w6BadBody) Json.null []

def w6BadJson : Json := (jsonParse w6BadBody).getD .null

def w6NullEvent : Event := mkEvent "POST" "/profile" (wAuthCtx "user-a") (some "null") Json.null []

set_option maxRecDepth 100000 in
theorem profile_validation_amended_witness :
    profileHandler w6BadEvent "T1" [] =
      ([], createErrorResponse 400 "INVALID_VALUE"
        "height_cm must be a positive number less than 300") ∧
    profileHandler w6NullEvent "T1" [] =
      ([], createErrorResponse 500 "INTERNAL_ERROR" "An unexpected error occurred") ∧
    specProfileAccept w10Json = true ∧
    profileHandler w10Event "T1" [] =
      (putItemBy [] (Json.str "user-a") (profileData (Json.str "user-a") w10Json "T1"),
       createResponse 200
         (Json.obj [("ok", .bool true),
           ("profile", profileData (Json.str "user-a") w10Json "T1")])) := by
  refine ⟨?_, ?_, rfl, ?_⟩
  · exact ((profile_validation_amended w6BadEvent (Json.str "user-a") w6BadJson [] "T1"
      rfl rfl).2.1 _ rfl).1
  · exact (profile_validation_amended w6NullEvent (Json.str "user-a") Json.null [] "T1"
      rfl rfl).2.2.1 .typeError rfl
  · exact (profile_validation_amended w10Event (Json.str "user-a") w10Json [] "T1"
      rfl rfl).2.2.2.2 rfl

/-! ## Claim C5 -/

/-- Python `==` against a string literal holds only for an equal string. -/
theorem pyEq_str_right (v : Json) (s : String) :
    pyEq v (.str s) = (match v with | .str m => m == s | _ => false) := by
  cases v <;> simp [pyEq, Json.numVal]

/-- Spec-side reading (amended) of fit-creation acceptance: `items` is a
list — possibly empty — whose elements are all dicts carrying `retailer`
and `productId`, and `mode` is one of the two mode strings. -/
def specFitAccept (body : Json) : Bool :=
  (match body.getKey "items" with
   | some (.arr xs) =>
     xs.all (fun item => item.isDict && item.hasKey "retailer" && item.hasKey "productId")
   | _ => false) &&
  (match body.getKey "mode" with
   | some (.str m) => m == "MVP_COMPOSITE" || m == "BEDROCK"
   | _ => false)

/-- C5 (amended): the fit-creation handler accepts a body exactly when its
`items` field is a list — possibly empty, the code does not check
non-emptiness — whose elements each carry `retailer` and `productId`, and
`mode` is `MVP_COMPOSITE` or `BEDROCK`; a violation found by the checks is
answered with the corresponding `MISSING_FIELD`/`INVALID_MODE`/
`INVALID_ITEMS` error (HTTP 400) and no record is written.  A body on
which `'items' in body` or `body['items']` itself raises `TypeError` —
always the case for a `null`, boolean or number body, such as the
reachable request body `null` — is answered by the handler's generic arm
as `INTERNAL_ERROR` (HTTP 500), again with no record written. -/
theorem fit_create_validation_amended
    (ev : Event) (sub body : Json) (fid n1 n2 n3 : String) (genOk : Bool) (table : FitsTable)
    (hauth : getUserId ev = .ok sub)
    (hbody : parseEventBody ev.body = some body) :
    (fitValidate body = .ok none ↔ specFitAccept body = true) ∧
    (∀ e, fitValidate body = .ok (some e) →
      fitCreateHandler ev fid n1 n2 n3 genOk table = (table, e) ∧
      (e = createErrorResponse 400 "MISSING_FIELD" "items array is required" ∨
       e = createErrorResponse 400 "INVALID_MODE" "mode must be MVP_COMPOSITE or BEDROCK" ∨
       e = createErrorResponse 400 "INVALID_ITEMS" "Each item must have retailer and productId")) ∧
    (∀ x, fitValidate body = .error x →
      fitCreateHandler ev fid n1 n2 n3 genOk table =
        (table, createErrorResponse 500 "INTERNAL_ERROR" "An unexpected error occurred")) ∧
    fitValidate Json.null = .error .typeError := by
  refine ⟨?_, ?_, ?_, rfl⟩
  · cases body with
    | null => simp [fitValidate, fitItemsOk, pyContains, specFitAccept, Json.getKey]
    | bool b => simp [fitValidate, fitItemsOk, pyContains, specFitAccept, Json.getKey]
    | num q => simp [fitValidate, fitItemsOk, pyContains, specFitAccept, Json.getKey]
    | str s =>
      by_cases hin : strFindSub "items".data s.data <;>
        simp [fitValidate, fitItemsOk, pyContains, subscriptS, specFitAccept,
          Json.getKey, hin]
    | arr xs =>
      by_cases hin : xs.any (fun e => pyEq (.str "items") e) <;>
        simp [fitValidate, fitItemsOk, pyContains, subscriptS, specFitAccept,
          Json.getKey, hin]
    | obj kvs =>
      cases hitems : Json.lookup kvs "items" with
      | none =>
        simp [fitValidate, fitItemsOk, pyContains, Json.hasKey, Json.getKey,
          specFitAccept, hitems]
      | some v =>
        cases v with
        | arr xs =>
          cases hmode : Json.lookup kvs "mode" with
          | none =>
            simp [fitValidate, fitItemsOk, fitModeOk, pyContains, Json.hasKey,
              Json.getKey, subscriptS, specFitAccept, hitems, hmode, Json.isList]
          | some m =>
            cases m with
            | str sm =>
              by_cases hs : sm = "MVP_COMPOSITE" ∨ sm = "BEDROCK"
              · by_cases hall : xs.all
                    (fun item => item.isDict && item.hasKey "retailer" &&
                      item.hasKey "productId") = true
                · rcases hs with h | h <;> subst h <;>
                    simp [fitValidate, fitItemsOk, fitModeOk, pyContains, Json.hasKey,
                      Json.getKey, subscriptS, specFitAccept, hitems, hmode,
                      Json.isList, pyEq, hall, Option.isSome_iff_ne_none, and_assoc]
                · rcases hs with h | h <;> subst h <;>
                    simp [fitValidate, fitItemsOk, fitModeOk, pyContains, Json.hasKey,
                      Json.getKey, subscriptS, specFitAccept, hitems, hmode,
                      Json.isList, pyEq, hall, Option.isSome_iff_ne_none, and_assoc]
              · have h1 : ¬(sm = "MVP_COMPOSITE") := fun h => hs (Or.inl h)
                have h2 : ¬(sm = "BEDROCK") := fun h => hs (Or.inr h)
                simp [fitValidate, fitItemsOk, fitModeOk, pyContains, Json.hasKey,
                  Json.getKey, subscriptS, specFitAccept, hitems, hmode,
                  Json.isList, pyEq, h1, h2]
            | null =>
              simp [fitValidate, fitItemsOk, fitModeOk, pyContains, Json.hasKey,
                Json.getKey, subscriptS, specFitAccept, hitems, hmode,
                Json.isList, pyEq, Json.numVal]
            | bool b =>
              simp [fitValidate, fitItemsOk, fitModeOk, pyContains, Json.hasKey,
                Json.getKey, subscriptS, specFitAccept, hitems, hmode,
                Json.isList, pyEq, Json.numVal]
            | num q =>
              simp [fitValidate, fitItemsOk, fitModeOk, pyContains, Json.hasKey,
                Json.getKey, subscriptS, specFitAccept, hitems, hmode,
                Json.isList, pyEq, Json.numVal]
            | arr a =>
              simp [fitValidate, fitItemsOk, fitModeOk, pyContains, Json.hasKey,
                Json.getKey, subscriptS, specFitAccept, hitems, hmode,
                Json.isList, pyEq, Json.numVal]
            | obj o =>
              simp [fitValidate, fitItemsOk, fitModeOk, pyContains, Json.hasKey,
                Json.getKey, subscriptS, specFitAccept, hitems, hmode,
                Json.isList, pyEq, Json.numVal]
        | null =>
          simp [fitValidate, fitItemsOk, pyContains, Json.hasKey, Json.getKey,
            subscriptS, specFitAccept, hitems, Json.isList]
        | bool b =>
          simp [fitValidate, fitItemsOk, pyContains, Json.hasKey, Json.getKey,
            subscriptS, specFitAccept, hitems, Json.isList]
        | num q =>
          simp [fitValidate, fitItemsOk, pyContains, Json.hasKey, Json.getKey,
            subscriptS, specFitAccept, hitems, Json.isList]
        | str sv =>
          simp [fitValidate, fitItemsOk, pyContains, Json.hasKey, Json.getKey,
            subscriptS, specFitAccept, hitems, Json.isList]
        | obj o =>
          simp [fitValidate, fitItemsOk, pyContains, Json.hasKey, Json.getKey,
            subscriptS, specFitAccept, hitems, Json.isList]
  · intro e he
    refine ⟨by simp [fitCreateHandler, hauth, hbody, fitCreateRun, he], ?_⟩
    unfold fitValidate at he
    cases hio : fitItemsOk body with
    | error ex => rw [hio] at he; simp at he
    | ok ib =>
      rw [hio] at he
      cases ib with
      | false =>
        simp at he
        exact Or.inl he.symm
      | true =>
        cases hmo : fitModeOk body with
        | error ex => rw [hmo] at he; simp at he
        | ok mb =>
          rw [hmo] at he
          cases mb with
          | false =>
            simp at he
            exact Or.inr (Or.inl he.symm)
          | true =>
            by_cases ha : ((match body.getKey "items" with
                | some (.arr xs) => xs
                | _ => []).all
                  (fun item => item.isDict && item.hasKey "retailer" &&
                    item.hasKey "productId")) = true
            · rw [if_pos ha] at he
              simp at he
            · rw [if_neg ha] at he
              simp at he
              exact Or.inr (Or.inr he.symm)
  · intro x hx
    simp [fitCreateHandler, hauth, hbody, fitCreateRun, hx]

def w5Body : String := "\x7b\"items\": [], \"mode\": \"MVP_COMPOSITE\"\x7d"

def w5Event : Event := mkEvent "POST" "/fit" (wAuthCtx "user-a") (some w5Body) Json.null []

def w5Json : Json := (jsonParse w5Body).getD .null

set_option maxRecDepth 100000 in
/-- C5 as stated is false: an empty `items` list passes validation — the
code only checks that `items` is a list — so the request is accepted
(HTTP 201) and a FitJob record is written. -/
theorem fit_create_accepts_empty_items :
    w5Json.getKey "items" = some (Json.arr []) ∧
    fitValidate w5Json = .ok none ∧
    (fitCreateHandler w5Event "FID" "T1" "T2" "T3" true []).2.statusCode = 201 ∧
    (lookupFit (fitCreateHandler w5Event "FID" "T1" "T2" "T3" true []).1 "FID").isSome = true :=
  ⟨rfl, rfl, rfl, rfl⟩

def w5BadBody : String := "\x7b\"items\": 3, \"mode\": \"MVP_COMPOSITE\"\x7d"

def w5BadEvent : Event := mkEvent "POST" "/fit" (wAuthCtx "user-a") (some w5BadBody) Json.null []

def w5BadJson : Json := (jsonParse w5BadBody).getD .null

def w5NullEvent : Event := mkEvent "POST" "/fit" (wAuthCtx "user-a") (some "null") Json.null []

set_option maxRecDepth 100000 in
theorem fit_create_validation_amended_witness :
    specFitAccept w5Json = true ∧
    fitCreateHandler w5BadEvent "FID" "T1" "T2" "T3" true [] =
      ([], createErrorResponse 400 "MISSING_FIELD" "items array is required") ∧
    fitCreateHandler w5NullEvent "FID" "T1" "T2" "T3" true [] =
      ([], createErrorResponse 500 "INTERNAL_ERROR" "An unexpected error occurred") := by
  refine ⟨rfl, ?_, ?_⟩
  · exact ((fit_create_validation_amended w5BadEvent (Json.str "user-a") w5BadJson
      "FID" "T1" "T2" "T3" true [] rfl rfl).2.1 _ rfl).1
  · exact (fit_create_validation_amended w5NullEvent (Json.str "user-a") Json.null
      "FID" "T1" "T2" "T3" true [] rfl rfl).2.2.1 .typeError rfl

/-! ## Claim C2 -/

/-- C2: a fit-creation request with `mode=MVP_COMPOSITE` that passes
validation leaves the stored record `READY` — with the generated image
key — or `FAILED`, never `PENDING`; and when the synchronous generation
step fails, the `PENDING → FAILED` transition is persisted even though the
response is `GENERATION_FAILED` (HTTP 500). -/
theorem fit_mvp_composite_terminal
    (ev : Event) (sub body : Json) (fid n1 n2 n3 : String) (genOk : Bool) (table : FitsTable)
    (hauth : getUserId ev = .ok sub)
    (hbody : parseEventBody ev.body = some body)
    (hvalid : fitValidate body = .ok none)
    (hmode : modeOf body = "MVP_COMPOSITE")
    (hfresh : lookupFit table fid = none) :
    ∃ r, lookupFit (fitCreateHandler ev fid n1 n2 n3 genOk table).1 fid = some r ∧
      r.status ≠ "PENDING" ∧
      (genOk = true →
        r.status = "READY" ∧
        r.imageUrl = some ("generated/" ++ sub.pyStr ++ "/" ++ fid ++ ".jpg") ∧
        (fitCreateHandler ev fid n1 n2 n3 genOk table).2 =
          createResponse 201 (Json.obj [("fitId", .str fid), ("status", .str "READY")])) ∧
      (genOk = false →
        r.status = "FAILED" ∧ r.imageUrl = none ∧
        (fitCreateHandler ev fid n1 n2 n3 genOk table).2 =
          createErrorResponse 500 "GENERATION_FAILED" "Failed to generate fit") := by
  cases genOk with
  | true =>
    have hops : fitCreateHandler ev fid n1 n2 n3 true table =
        (applyFitOp (applyFitOp table (.putRec (pendingRecord sub body fid n1 n2)))
          (.updReady fid ("generated/" ++ sub.pyStr ++ "/" ++ fid ++ ".jpg") n3),
         createResponse 201 (Json.obj [("fitId", .str fid), ("status", .str "READY")])) := by
      simp [fitCreateHandler, hauth, hbody, fitCreateRun, hvalid, hmode]
    refine ⟨{ pendingRecord sub body fid n1 n2 with
              status := "READY"
              imageUrl := some ("generated/" ++ sub.pyStr ++ "/" ++ fid ++ ".jpg")
              updatedAt := n3 }, ?_, by simp [pendingRecord], ?_, by simp⟩
    · rw [hops]
      rw [show applyFitOp table (.putRec (pendingRecord sub body fid n1 n2)) =
          putFit table (pendingRecord sub body fid n1 n2) from rfl] at hops ⊢
      rw [lookupFit_updReady, lookupFit_putFit]
      simp [pendingRecord]
    · intro _
      refine ⟨by simp [pendingRecord], by simp [pendingRecord], ?_⟩
      rw [hops]
  | false =>
    have hops : fitCreateHandler ev fid n1 n2 n3 false table =
        (applyFitOp (applyFitOp table (.putRec (pendingRecord sub body fid n1 n2)))
          (.updFailed fid n3),
         createErrorResponse 500 "GENERATION_FAILED" "Failed to generate fit") := by
      simp [fitCreateHandler, hauth, hbody, fitCreateRun, hvalid, hmode]
    refine ⟨{ pendingRecord sub body fid n1 n2 with
              status := "FAILED"
              updatedAt := n3 }, ?_, by simp [pendingRecord], by simp, ?_⟩
    · rw [hops]
      rw [show applyFitOp table (.putRec (pendingRecord sub body fid n1 n2)) =
          putFit table (pendingRecord sub body fid n1 n2) from rfl] at hops ⊢
      rw [lookupFit_updFailed, lookupFit_putFit]
      simp [pendingRecord]
    · intro _
      refine ⟨by simp [pendingRecord], by simp [pendingRecord], ?_⟩
      rw [hops]

set_option maxRecDepth 100000 in
theorem fit_mvp_composite_terminal_witness :
    ((lookupFit (fitCreateHandler w5Event "FID" "T1" "T2" "T3" true []).1 "FID").map
      (fun r => r.status)) = some "READY" ∧
    ((lookupFit (fitCreateHandler w5Event "FID" "T1" "T2" "T3" false []).1 "FID").map
      (fun r => r.status)) = some "FAILED" ∧
    (fitCreateHandler w5Event "FID" "T1" "T2" "T3" false []).2 =
      createErrorResponse 500 "GENERATION_FAILED" "Failed to generate fit" := by
  obtain ⟨r1, hl1, _, hg1, _⟩ := fit_mvp_composite_terminal w5Event (Json.str "user-a") w5Json
    "FID" "T1" "T2" "T3" true [] rfl rfl rfl rfl rfl
  obtain ⟨r2, hl2, _, _, hg2⟩ := fit_mvp_composite_terminal w5Event (Json.str "user-a") w5Json
    "FID" "T1" "T2" "T3" false [] rfl rfl rfl rfl rfl
  refine ⟨?_, ?_, (hg2 rfl).2.2⟩
  · rw [hl1]
    simp [(hg1 rfl).1]
  · rw [hl2]
    simp [(hg2 rfl).1]

/-! ## Claim C1 -/

/-- The successive fits-table states as a sequence of mutations executes,
the starting state included. -/
def storeTrace (t : FitsTable) : List FitsOp → List FitsTable
  | [] => [t]
  | op :: ops => t :: storeTrace (applyFitOp t op) ops

theorem chain_put (table : FitsTable) (p : FitRecord)
    (hfresh : lookupFit table p.fitId = none) :
    ∀ id r, lookupFit table id = some r → r.status ≠ "PENDING" →
      lookupFit (putFit table p) id = some r := by
  intro id r hr _
  rw [lookupFit_putFit]
  by_cases h : id = p.fitId
  · rw [h, hfresh] at hr
    cases hr
  · rw [if_neg h]
    exact hr

theorem chain_updReady (table : FitsTable) (p : FitRecord) (key ts : String)
    (hp : p.status = "PENDING") :
    ∀ id r, lookupFit (putFit table p) id = some r → r.status ≠ "PENDING" →
      lookupFit (applyFitOp (putFit table p) (.updReady p.fitId key ts)) id = some r := by
  intro id r hr hs
  rw [lookupFit_updReady, hr]
  by_cases h : id = p.fitId
  · exfalso
    rw [h, lookupFit_putFit, if_pos rfl] at hr
    obtain rfl := (Option.some.injEq p r).mp hr
    exact hs hp
  · simp [if_neg h]

theorem chain_updFailed (table : FitsTable) (p : FitRecord) (ts : String)
    (hp : p.status = "PENDING") :
    ∀ id r, lookupFit (putFit table p) id = some r → r.status ≠ "PENDING" →
      lookupFit (applyFitOp (putFit table p) (.updFailed p.fitId ts)) id = some r := by
  intro id r hr hs
  rw [lookupFit_updFailed, hr]
  by_cases h : id = p.fitId
  · exfalso
    rw [h, lookupFit_putFit, if_pos rfl] at hr
    obtain rfl := (Option.some.injEq p r).mp hr
    exact hs hp
  · simp [if_neg h]

theorem inv_put (table : FitsTable) (p : FitRecord)
    (hinv : ∀ id r, lookupFit table id = some r → (r.imageUrl.isSome ↔ r.status = "READY"))
    (hpi : p.imageUrl = none) (hps : p.status = "PENDING") :
    ∀ id r, lookupFit (putFit table p) id = some r →
      (r.imageUrl.isSome ↔ r.status = "READY") := by
  intro id r hr
  rw [lookupFit_putFit] at hr
  by_cases h : id = p.fitId
  · rw [if_pos h] at hr
    obtain rfl := (Option.some.injEq p r).mp hr
    simp [hpi, hps]
  · rw [if_neg h] at hr
    exact hinv id r hr

theorem inv_updReady (t : FitsTable) (i key ts : String)
    (hinv : ∀ id r, lookupFit t id = some r → (r.imageUrl.isSome ↔ r.status = "READY")) :
    ∀ id r, lookupFit (applyFitOp t (.updReady i key ts)) id = some r →
      (r.imageUrl.isSome ↔ r.status = "READY") := by
  intro id r hr
  rw [lookupFit_updReady] at hr
  cases hl : lookupFit t id with
  | none => rw [hl] at hr; cases hr
  | some r0 =>
    rw [hl] at hr
    simp only [Option.map_some', Option.some.injEq] at hr
    by_cases h : id = i
    · rw [if_pos h] at hr
      subst hr
      simp
    · rw [if_neg h] at hr
      subst hr
      exact hinv id r0 hl

theorem inv_updFailed_pending (table : FitsTable) (p : FitRecord) (ts : String)
    (hinv : ∀ id r, lookupFit (putFit table p) id = some r →
      (r.imageUrl.isSome ↔ r.status = "READY"))
    (hpi : p.imageUrl = none) :
    ∀ id r, lookupFit (applyFitOp (putFit table p) (.updFailed p.fitId ts)) id = some r →
      (r.imageUrl.isSome ↔ r.status = "READY") := by
  intro id r hr
  rw [lookupFit_updFailed] at hr
  cases hl : lookupFit (putFit table p) id with
  | none => rw [hl] at hr; cases hr
  | some r0 =>
    rw [hl] at hr
    simp only [Option.map_some', Option.some.injEq] at hr
    by_cases h : id = p.fitId
    · rw [if_pos h] at hr
      subst hr
      rw [h, lookupFit_putFit, if_pos rfl] at hl
      obtain rfl := (Option.some.injEq p r0).mp hl
      simp [hpi]
    · rw [if_neg h] at hr
      subst hr
      exact hinv id r0 hl

/-- C1: the FitJob status machine is one-directional.  Every record the
fit-creation handler inserts has status `PENDING` and no image key; along
the store states its mutations traverse, a record whose status is `READY`
or `FAILED` is never changed — never set back to `PENDING` nor to the
other terminal state; and, given every pre-existing record satisfies it,
the invariant "the generated-image key is set iff the status is `READY`"
holds at every traversed state (`READY` being terminal, "is or was READY"
coincides with "is READY"; the fit-retrieval and fit-listing handlers
return no table, issuing no mutation). -/
theorem fit_status_one_directional
    (sub body : Json) (fid n1 n2 n3 : String) (genOk : Bool) (table : FitsTable)
    (hfresh : lookupFit table fid = none) :
    (∀ r, FitsOp.putRec r ∈ (fitCreateRun sub body fid n1 n2 n3 genOk).1 →
      r.status = "PENDING" ∧ r.imageUrl = none ∧ r.fitId = fid) ∧
    List.Chain' (fun pre post => ∀ id r, lookupFit pre id = some r →
        r.status ≠ "PENDING" → lookupFit post id = some r)
      (storeTrace table (fitCreateRun sub body fid n1 n2 n3 genOk).1) ∧
    ((∀ id r, lookupFit table id = some r → (r.imageUrl.isSome ↔ r.status = "READY")) →
      ∀ s ∈ storeTrace table (fitCreateRun sub body fid n1 n2 n3 genOk).1,
        ∀ id r, lookupFit s id = some r → (r.imageUrl.isSome ↔ r.status = "READY")) := by
  have hpfid : (pendingRecord sub body fid n1 n2).fitId = fid := rfl
  have hps : (pendingRecord sub body fid n1 n2).status = "PENDING" := rfl
  have hpi : (pendingRecord sub body fid n1 n2).imageUrl = none := rfl
  by_cases hvx : fitValidate body = .ok none
  case neg =>
    have hops : (fitCreateRun sub body fid n1 n2 n3 genOk).1 = [] := by
      cases hval : fitValidate body with
      | error ex => simp [fitCreateRun, hval]
      | ok o =>
        cases o with
        | some e => simp [fitCreateRun, hval]
        | none => exact absurd hval hvx
    rw [hops]
    refine ⟨by simp, by simp [storeTrace], ?_⟩
    intro hinv s hs
    simp [storeTrace] at hs
    subst hs
    exact hinv
  case pos =>
    have hval := hvx
    by_cases hb : modeOf body = "BEDROCK"
    · have hops : (fitCreateRun sub body fid n1 n2 n3 genOk).1 =
          [.putRec (pendingRecord sub body fid n1 n2)] := by
        simp [fitCreateRun, hval, hb]
      rw [hops]
      have happ : applyFitOp table (.putRec (pendingRecord sub body fid n1 n2)) =
          putFit table (pendingRecord sub body fid n1 n2) := rfl
      refine ⟨?_, ?_, ?_⟩
      · intro r hr
        simp at hr
        subst hr
        exact ⟨rfl, rfl, rfl⟩
      · simp only [storeTrace, happ, List.chain'_cons, List.chain'_singleton, and_true]
        exact chain_put table _ (hpfid ▸ hfresh)
      · intro hinv s hs
        simp only [storeTrace, happ, List.mem_cons, List.mem_singleton] at hs
        rcases hs with rfl | rfl | h
        · exact hinv
        · exact inv_put table _ hinv hpi hps
        · exact absurd h (List.not_mem_nil s)
    · cases genOk with
      | true =>
        have hops : (fitCreateRun sub body fid n1 n2 n3 true).1 =
            [.putRec (pendingRecord sub body fid n1 n2),
             .updReady fid ("generated/" ++ sub.pyStr ++ "/" ++ fid ++ ".jpg") n3] := by
          simp [fitCreateRun, hval, hb]
        rw [hops]
        have happ : applyFitOp table (.putRec (pendingRecord sub body fid n1 n2)) =
            putFit table (pendingRecord sub body fid n1 n2) := rfl
        refine ⟨?_, ?_, ?_⟩
        · intro r hr
          simp at hr
          subst hr
          exact ⟨rfl, rfl, rfl⟩
        · simp only [storeTrace, happ, List.chain'_cons, List.chain'_singleton, and_true]
          refine ⟨chain_put table _ (hpfid ▸ hfresh), ?_⟩
          have := chain_updReady table (pendingRecord sub body fid n1 n2)
            ("generated/" ++ sub.pyStr ++ "/" ++ fid ++ ".jpg") n3 hps
          rw [hpfid] at this
          exact this
        · intro hinv s hs
          simp only [storeTrace, happ, List.mem_cons, List.mem_singleton] at hs
          have hinv1 := inv_put table (pendingRecord sub body fid n1 n2) hinv hpi hps
          rcases hs with rfl | rfl | rfl | h
          · exact hinv
          · exact hinv1
          · exact inv_updReady (putFit table (pendingRecord sub body fid n1 n2)) fid
              ("generated/" ++ sub.pyStr ++ "/" ++ fid ++ ".jpg") n3 hinv1
          · exact absurd h (List.not_mem_nil s)
      | false =>
        have hops : (fitCreateRun sub body fid n1 n2 n3 false).1 =
            [.putRec (pendingRecord sub body fid n1 n2), .updFailed fid n3] := by
          simp [fitCreateRun, hval, hb]
        rw [hops]
        have happ : applyFitOp table (.putRec (pendingRecord sub body fid n1 n2)) =
            putFit table (pendingRecord sub body fid n1 n2) := rfl
        refine ⟨?_, ?_, ?_⟩
        · intro r hr
          simp at hr
          subst hr
          exact ⟨rfl, rfl, rfl⟩
        · simp only [storeTrace, happ, List.chain'_cons, List.chain'_singleton, and_true]
          refine ⟨chain_put table _ (hpfid ▸ hfresh), ?_⟩
          have := chain_updFailed table (pendingRecord sub body fid n1 n2) n3 hps
          rw [hpfid] at this
          exact this
        · intro hinv s hs
          simp only [storeTrace, happ, List.mem_cons, List.mem_singleton] at hs
          have hinv1 := inv_put table (pendingRecord sub body fid n1 n2) hinv hpi hps
          rcases hs with rfl | rfl | rfl | h
          · exact hinv
          · exact hinv1
          · have := inv_updFailed_pending table (pendingRecord sub body fid n1 n2) n3 hinv1 hpi
            rw [hpfid] at this
            exact this
          · exact absurd h (List.not_mem_nil s)

theorem fit_status_one_directional_witness :
    List.Chain' (fun pre post => ∀ id r, lookupFit pre id = some r →
        r.status ≠ "PENDING" → lookupFit post id = some r)
      (storeTrace [] (fitCreateRun (Json.str "user-a") w5Json "FID" "T1" "T2" "T3" true).1) :=
  (fit_status_one_directional (Json.str "user-a") w5Json "FID" "T1" "T2" "T3" true [] rfl).2.1

/-! ## Claim C3 -/

theorem cartGet_cartPut_self (t : CartTable) (key : Json × String) (item : Json) :
    cartGet (cartPut t key item) key = some item := by
  have hself : cartKeyEq key key = true := by
    simp [cartKeyEq, pyEq_refl]
  induction t with
  | nil => simp [cartPut, cartGet, List.find?, hself]
  | cons e rest ih =>
    obtain ⟨k, v⟩ := e
    by_cases h : cartKeyEq k key
    · simp [cartPut, cartGet, List.find?, h, hself]
    · simp only [cartPut, if_neg h]
      simpa [cartGet, List.find?, h] using ih

set_option maxHeartbeats 2000000 in
/-- The item produced by a first-time cart upsert (no stored item for the
key): every submitted field, `updatedAt` and `addedAt` all stamped from
the same timestamp. -/
theorem cartUpdatedItem_fresh (sub b : Json) (ik now : String) :
    cartUpdatedItem none sub ik b now = Json.obj
      [("user_id", sub), ("item_key", .str ik),
       ("retailer", (b.getKey "retailer").getD .null),
       ("productId", (b.getKey "productId").getD .null),
       ("title", (b.getKey "title").getD .null),
       ("price_cents", (b.getKey "price_cents").getD .null),
       ("currency", (b.getKey "currency").getD .null),
       ("productUrl", (b.getKey "productUrl").getD .null),
       ("imageUrl", (b.getKey "imageUrl").getD .null),
       ("selectedSize", (b.getKey "selectedSize").getD .null),
       ("color", (b.getKey "color").getD .null),
       ("category", (b.getKey "category").getD .null),
       ("updatedAt", .str now), ("addedAt", .str now)] := rfl

set_option maxHeartbeats 1000000 in
/-- A repeat upsert over the fresh item: fields and `updatedAt` replaced
in place from the new body and timestamp, `addedAt` kept. -/
theorem cartUpdatedItem_repeat (sub b1 b2 : Json) (ik t1 t2 : String) :
    cartUpdatedItem (some (cartUpdatedItem none sub ik b1 t1)) sub ik b2 t2 = Json.obj
      [("user_id", sub), ("item_key", .str ik),
       ("retailer", (b2.getKey "retailer").getD .null),
       ("productId", (b2.getKey "productId").getD .null),
       ("title", (b2.getKey "title").getD .null),
       ("price_cents", (b2.getKey "price_cents").getD .null),
       ("currency", (b2.getKey "currency").getD .null),
       ("productUrl", (b2.getKey "productUrl").getD .null),
       ("imageUrl", (b2.getKey "imageUrl").getD .null),
       ("selectedSize", (b2.getKey "selectedSize").getD .null),
       ("color", (b2.getKey "color").getD .null),
       ("category", (b2.getKey "category").getD .null),
       ("updatedAt", .str t2), ("addedAt", .str t1)] := by
  rw [cartUpdatedItem_fresh]
  simp [cartUpdatedItem, cartRequiredFields, objInsert, Json.lookup, List.find?]

/-- C3: for one user and one `(retailer, productId)` key, a first valid
upsert stamps `addedAt` and `updatedAt` with its timestamp; a second
valid upsert for the same key updates every submitted field and refreshes
`updatedAt`, but leaves `addedAt` at the value stamped by the first
invocation — `addedAt` is set exactly once, on first insert. -/
theorem cart_upsert_addedAt_first_seen
    (ev1 ev2 : Event) (sub b1 b2 : Json) (t1 t2 : String) (table : CartTable)
    (h1a : getUserId ev1 = .ok sub) (h1b : parseEventBody ev1.body = some b1)
    (h2a : getUserId ev2 = .ok sub) (h2b : parseEventBody ev2.body = some b2)
    (hv1 : cartValidate b1 = .ok none) (hv2 : cartValidate b2 = .ok none)
    (hr : b1.getKey "retailer" = b2.getKey "retailer")
    (hp : b1.getKey "productId" = b2.getKey "productId")
    (hfresh : cartGet table (sub, itemKeyOf b1) = none) :
    ∃ item1 item2,
      cartGet (cartPostHandler ev1 t1 table).1 (sub, itemKeyOf b1) = some item1 ∧
      cartGet (cartPostHandler ev2 t2 (cartPostHandler ev1 t1 table).1).1
        (sub, itemKeyOf b1) = some item2 ∧
      item1.getKey "addedAt" = some (.str t1) ∧
      item1.getKey "updatedAt" = some (.str t1) ∧
      item2.getKey "addedAt" = some (.str t1) ∧
      item2.getKey "updatedAt" = some (.str t2) ∧
      ∀ f ∈ cartRequiredFields, item2.getKey f = some ((b2.getKey f).getD .null) := by
  have hik : itemKeyOf b2 = itemKeyOf b1 := by
    simp [itemKeyOf, hr, hp]
  have h1 : (cartPostHandler ev1 t1 table).1 =
      cartPut table (sub, itemKeyOf b1) (cartUpdatedItem none sub (itemKeyOf b1) b1 t1) := by
    simp [cartPostHandler, h1a, h1b, hv1, hfresh]
  have hget1 : cartGet (cartPostHandler ev1 t1 table).1 (sub, itemKeyOf b1) =
      some (cartUpdatedItem none sub (itemKeyOf b1) b1 t1) := by
    rw [h1, cartGet_cartPut_self]
  generalize hst1 : (cartPostHandler ev1 t1 table).1 = st1 at hget1 ⊢
  have h2 : (cartPostHandler ev2 t2 st1).1 =
      cartPut st1 (sub, itemKeyOf b1)
        (cartUpdatedItem (some (cartUpdatedItem none sub (itemKeyOf b1) b1 t1)) sub
          (itemKeyOf b1) b2 t2) := by
    simp [cartPostHandler, h2a, h2b, hv2, hik, hget1]
  refine ⟨cartUpdatedItem none sub (itemKeyOf b1) b1 t1,
    cartUpdatedItem (some (cartUpdatedItem none sub (itemKeyOf b1) b1 t1)) sub
      (itemKeyOf b1) b2 t2, hget1, ?_, ?_, ?_, ?_, ?_, ?_⟩
  · rw [h2, cartGet_cartPut_self]
  · rw [cartUpdatedItem_fresh]
    simp [Json.getKey, Json.lookup, List.find?]
  · rw [cartUpdatedItem_fresh]
    simp [Json.getKey, Json.lookup, List.find?]
  · rw [cartUpdatedItem_repeat]
    simp [Json.getKey, Json.lookup, List.find?]
  · rw [cartUpdatedItem_repeat]
    simp [Json.getKey, Json.lookup, List.find?]
  · intro f hf
    rw [cartUpdatedItem_repeat]
    simp only [cartRequiredFields, List.mem_cons, List.not_mem_nil, or_false] at hf
    rcases hf with rfl | rfl | rfl | rfl | rfl | rfl | rfl | rfl | rfl | rfl <;>
      simp [Json.getKey, Json.lookup, List.find?]

def w3Body1 : String :=
  "\x7b\"retailer\": \"acme\", \"productId\": \"p1\", \"title\": \"tee\", \"price_cents\": 1999, \"currency\": \"USD\", \"productUrl\": \"u\", \"imageUrl\": \"i\", \"selectedSize\": \"M\", \"color\": \"red\", \"category\": \"top\"\x7d"

def w3Body2 : String :=
  "\x7b\"retailer\": \"acme\", \"productId\": \"p1\", \"title\": \"tee\", \"price_cents\": 1499, \"currency\": \"USD\", \"productUrl\": \"u\", \"imageUrl\": \"i\", \"selectedSize\": \"M\", \"color\": \"red\", \"category\": \"top\"\x7d"

def w3Event1 : Event := mkEvent "POST" "/cart" (wAuthCtx "user-a") (some w3Body1) Json.null []

def w3Event2 : Event := mkEvent "POST" "/cart" (wAuthCtx "user-a") (some w3Body2) Json.null []

def w3Json1 : Json := (jsonParse w3Body1).getD .null

def w3Json2 : Json := (jsonParse w3Body2).getD .null

set_option maxRecDepth 1000000 in
set_option maxHeartbeats 2000000 in
theorem cart_upsert_addedAt_first_seen_witness :
    ((cartGet (cartPostHandler w3Event2 "T2" (cartPostHandler w3Event1 "T1" []).1).1
        (Json.str "user-a", itemKeyOf w3Json1)).map (fun i => i.getKey "addedAt")) =
      some (some (.str "T1")) ∧
    ((cartGet (cartPostHandler w3Event2 "T2" (cartPostHandler w3Event1 "T1" []).1).1
        (Json.str "user-a", itemKeyOf w3Json1)).map (fun i => i.getKey "updatedAt")) =
      some (some (.str "T2")) ∧
    ((cartGet (cartPostHandler w3Event2 "T2" (cartPostHandler w3Event1 "T1" []).1).1
        (Json.str "user-a", itemKeyOf w3Json1)).map (fun i => i.getKey "price_cents")) =
      some (some ((w3Json2.getKey "price_cents").getD .null)) := by
  obtain ⟨i1, i2, hg1, hg2, ha1, hu1, ha2, hu2, hf⟩ :=
    cart_upsert_addedAt_first_seen w3Event1 w3Event2 (Json.str "user-a") w3Json1 w3Json2
      "T1" "T2" [] rfl rfl rfl rfl rfl rfl rfl rfl rfl
  rw [hg2]
  refine ⟨by simp [ha2], by simp [hu2], ?_⟩
  have := hf "price_cents" (by simp [cartRequiredFields])
  simp [this]

/-! ## Claim C9 — base64 round trip -/

theorem b64val_b64chr : ∀ n < 64, b64val (b64chr n) = some n := by decide

theorem b64chr_ne_pad : ∀ n < 64, b64chr n ≠ '=' := by decide

theorem b64_keep : ∀ n, n < 64 → ((b64val (b64chr n)).isSome || b64chr n == '=') = true := by
  intro n hn
  rw [b64val_b64chr n hn]
  simp

theorem b64encode_mem_keep : ∀ bs : List Nat, (∀ b ∈ bs, b < 256) →
    ∀ c ∈ b64encode bs, ((b64val c).isSome || c == '=') = true
  | [] => by intro _ c hc; simp [b64encode] at hc
  | [a] => by
    intro h c hc
    have ha : a < 256 := h a (by simp)
    simp only [b64encode, List.mem_cons, List.not_mem_nil, or_false] at hc
    rcases hc with rfl | rfl | rfl | rfl
    · exact b64_keep _ (by omega)
    · exact b64_keep _ (by omega)
    · simp
    · simp
  | [a, b] => by
    intro h c hc
    have ha : a < 256 := h a (by simp)
    have hb : b < 256 := h b (by simp)
    simp only [b64encode, List.mem_cons, List.not_mem_nil, or_false] at hc
    rcases hc with rfl | rfl | rfl | rfl
    · exact b64_keep _ (by omega)
    · exact b64_keep _ (by omega)
    · exact b64_keep _ (by omega)
    · simp
  | a :: b :: c0 :: rest => by
    intro h c hc
    have ha : a < 256 := h a (by simp)
    have hb : b < 256 := h b (by simp)
    have hc0 : c0 < 256 := h c0 (by simp)
    simp only [b64encode, List.mem_cons] at hc
    rcases hc with rfl | rfl | rfl | rfl | hmem
    · exact b64_keep _ (by omega)
    · exact b64_keep _ (by omega)
    · exact b64_keep _ (by omega)
    · exact b64_keep _ (by omega)
    · exact b64encode_mem_keep rest (fun x hx => h x (by simp [hx])) c hmem

theorem b64decodeGroups_encode : ∀ bs : List Nat, (∀ b ∈ bs, b < 256) →
    b64decodeGroups (b64encode bs) = some bs
  | [] => by intro _; simp [b64encode, b64decodeGroups]
  | [a] => by
    intro h
    have ha : a < 256 := h a (by simp)
    have h1 : a / 4 < 64 := by omega
    have h2 : a % 4 * 16 < 64 := by omega
    simp only [b64encode, b64decodeGroups]
    rw [if_pos (by simp)]
    simp [b64val_b64chr _ h1, b64val_b64chr _ h2]
    omega
  | [a, b] => by
    intro h
    have ha : a < 256 := h a (by simp)
    have hb : b < 256 := h b (by simp)
    have h1 : a / 4 < 64 := by omega
    have h2 : a % 4 * 16 + b / 16 < 64 := by omega
    have h3 : b % 16 * 4 < 64 := by omega
    simp only [b64encode, b64decodeGroups]
    rw [if_neg (fun hcon => b64chr_ne_pad _ h3 hcon.1), if_pos (by simp)]
    simp [b64val_b64chr _ h1, b64val_b64chr _ h2, b64val_b64chr _ h3]
    constructor
    · omega
    · omega
  | a :: b :: c :: rest => by
    intro h
    have ha : a < 256 := h a (by simp)
    have hb : b < 256 := h b (by simp)
    have hc : c < 256 := h c (by simp)
    have h1 : a / 4 < 64 := by omega
    have h2 : a % 4 * 16 + b / 16 < 64 := by omega
    have h3 : b % 16 * 4 + c / 64 < 64 := by omega
    have h4 : c % 64 < 64 := by omega
    have htail := b64decodeGroups_encode rest (fun x hx => h x (by simp [hx]))
    simp only [b64encode, b64decodeGroups]
    rw [if_neg (fun hcon => b64chr_ne_pad _ h3 hcon.1),
        if_neg (fun hcon => b64chr_ne_pad _ h4 hcon.1)]
    simp [b64val_b64chr _ h1, b64val_b64chr _ h2, b64val_b64chr _ h3, b64val_b64chr _ h4,
      htail]
    refine ⟨by omega, by omega, by omega⟩

theorem b64decode_encode (bs : List Nat) (h : ∀ b ∈ bs, b < 256) :
    b64decode (b64encode bs) = some bs := by
  unfold b64decode
  rw [List.filter_eq_self.mpr (b64encode_mem_keep bs h)]
  exact b64decodeGroups_encode bs h

/-! ## Claim C9 — UTF-8 on the ASCII output of the printer -/

theorem utf8Encode_ascii (cs : List Char) (h : ∀ c ∈ cs, c.toNat < 128) :
    utf8Encode cs = cs.map Char.toNat := by
  induction cs with
  | nil => rfl
  | cons c rest ih =>
    have hc : c.toNat < 128 := h c (by simp)
    have hchar : utf8EncodeChar c = [c.toNat] := by
      simp only [utf8EncodeChar]
      rw [if_pos hc]
    have hstep : utf8Encode (c :: rest) = utf8EncodeChar c ++ utf8Encode rest := rfl
    rw [hstep, hchar, ih fun x hx => h x (by simp [hx]), List.map_cons]
    rfl

/-- One-step unfolding of `utf8Decode` on a cons cell. -/
theorem utf8Decode_cons (b : Nat) (rest : List Nat) :
    utf8Decode (b :: rest) =
      (if b < 128 then (utf8Decode rest).map (Char.ofNat b :: ·)
       else if b < 194 then none
       else if b < 224 then utf8Dec2 b rest
       else if b < 240 then utf8Dec3 b rest
       else if b < 245 then utf8Dec4 b rest
       else none) := by
  rw [utf8Decode]

theorem utf8Decode_map_toNat (cs : List Char) (h : ∀ c ∈ cs, c.toNat < 128) :
    utf8Decode (cs.map Char.toNat) = some cs := by
  induction cs with
  | nil => rfl
  | cons c rest ih =>
    have hc : c.toNat < 128 := h c (by simp)
    have step : utf8Decode (c.toNat :: List.map Char.toNat rest) =
        (utf8Decode (List.map Char.toNat rest)).map (Char.ofNat c.toNat :: ·) := by
      rw [utf8Decode_cons, if_pos hc]
    rw [List.map_cons, step, ih fun x hx => h x (by simp [hx])]
    simp [Char.ofNat_toNat]

/-! ## Claim C9 — string escaping round trip -/

/-- The raw `\uXXXX` code units a character's escape denotes: itself for
the basic plane, the surrogate pair for astral characters. -/
def rawUnits (c : Char) : List Nat :=
  if c.toNat < 65536 then [c.toNat]
  else [55296 + (c.toNat - 65536) / 1024, 56320 + (c.toNat - 65536) % 1024]

theorem char_toNat_valid (c : Char) :
    c.toNat < 55296 ∨ (57343 < c.toNat ∧ c.toNat < 1114112) := by
  simpa [Char.toNat, UInt32.isValidChar, Nat.isValidChar] using c.valid

theorem hexVal_hexDig : ∀ n < 16, hexVal (hexDig n) = some n := by decide

theorem hex4Val_digits (n : Nat) (h : n < 65536) :
    hex4Val (hexDig (n / 4096)) (hexDig (n / 256 % 16)) (hexDig (n / 16 % 16))
      (hexDig (n % 16)) = some n := by
  have d1 : n / 4096 < 16 := by omega
  have d2 : n / 256 % 16 < 16 := by omega
  have d3 : n / 16 % 16 < 16 := by omega
  have d4 : n % 16 < 16 := by omega
  simp [hex4Val, hexVal_hexDig _ d1, hexVal_hexDig _ d2, hexVal_hexDig _ d3,
    hexVal_hexDig _ d4]
  omega

theorem parseStrRaw_u (g n : Nat) (tail : List Char) (hn : n < 65536) :
    parseStrRaw (g + 1) ('\\' :: 'u' :: hexDig (n / 4096) :: hexDig (n / 256 % 16) ::
      hexDig (n / 16 % 16) :: hexDig (n % 16) :: tail) =
      (parseStrRaw g tail).map (fun p => (n :: p.1, p.2)) := by
  simp only [parseStrRaw, parseU, hex4Val_digits n hn]
  simp

/-- One escaped character parses back to its raw code units, whatever
follows; each `\uXXXX` group costs one unit of fuel. -/
theorem parseStrRaw_esc (f : Nat) (c : Char) (rest : List Char) :
    parseStrRaw (f + (rawUnits c).length) (escapeChar c ++ rest) =
      (parseStrRaw f rest).map (fun p => (rawUnits c ++ p.1, p.2)) := by
  have hval := char_toNat_valid c
  by_cases h34 : c.toNat = 34
  · have hc : c = '"' := by rw [← Char.ofNat_toNat c, h34]
    subst hc
    rw [show rawUnits '"' = [('"').toNat] from by decide,
        show escapeChar '"' = ['\\', '"'] from by decide]
    simp [parseStrRaw, escTable]
  by_cases h92 : c.toNat = 92
  · have hc : c = '\\' := by rw [← Char.ofNat_toNat c, h92]
    subst hc
    rw [show rawUnits '\\' = [('\\').toNat] from by decide,
        show escapeChar '\\' = ['\\', '\\'] from by decide]
    simp [parseStrRaw, escTable]
  by_cases h8 : c.toNat = 8
  · have hc : c = Char.ofNat 8 := by rw [← Char.ofNat_toNat c, h8]
    subst hc
    rw [show rawUnits (Char.ofNat 8) = [(Char.ofNat 8).toNat] from by decide,
        show escapeChar (Char.ofNat 8) = ['\\', 'b'] from by decide]
    simp [parseStrRaw, escTable]
  by_cases h9 : c.toNat = 9
  · have hc : c = Char.ofNat 9 := by rw [← Char.ofNat_toNat c, h9]
    subst hc
    rw [show rawUnits (Char.ofNat 9) = [(Char.ofNat 9).toNat] from by decide,
        show escapeChar (Char.ofNat 9) = ['\\', 't'] from by decide]
    simp [parseStrRaw, escTable]
  by_cases h10 : c.toNat = 10
  · have hc : c = Char.ofNat 10 := by rw [← Char.ofNat_toNat c, h10]
    subst hc
    rw [show rawUnits (Char.ofNat 10) = [(Char.ofNat 10).toNat] from by decide,
        show escapeChar (Char.ofNat 10) = ['\\', 'n'] from by decide]
    simp [parseStrRaw, escTable]
  by_cases h12 : c.toNat = 12
  · have hc : c = Char.ofNat 12 := by rw [← Char.ofNat_toNat c, h12]
    subst hc
    rw [show rawUnits (Char.ofNat 12) = [(Char.ofNat 12).toNat] from by decide,
        show escapeChar (Char.ofNat 12) = ['\\', 'f'] from by decide]
    simp [parseStrRaw, escTable]
  by_cases h13 : c.toNat = 13
  · have hc : c = Char.ofNat 13 := by rw [← Char.ofNat_toNat c, h13]
    subst hc
    rw [show rawUnits (Char.ofNat 13) = [(Char.ofNat 13).toNat] from by decide,
        show escapeChar (Char.ofNat 13) = ['\\', 'r'] from by decide]
    simp [parseStrRaw, escTable]
  by_cases hrange : c.toNat < 32 ∨ 126 < c.toNat
  · by_cases hbmp : c.toNat < 65536
    · have hesc : escapeChar c = '\\' :: 'u' :: toHex4 c.toNat := by
        simp only [escapeChar]
        rw [if_neg h34, if_neg h92, if_neg h8, if_neg h9, if_neg h10, if_neg h12,
          if_neg h13, if_pos hrange, if_pos hbmp]
      have hru : rawUnits c = [c.toNat] := by simp [rawUnits, hbmp]
      rw [hesc, hru]
      simp only [toHex4, List.length_cons, List.length_nil, List.cons_append,
        List.nil_append]
      simp only [parseStrRaw, parseU, hex4Val_digits c.toNat hbmp]
      simp
    · have hesc : escapeChar c =
          ('\\' :: 'u' :: toHex4 (55296 + (c.toNat - 65536) / 1024)) ++
            ('\\' :: 'u' :: toHex4 (56320 + (c.toNat - 65536) % 1024)) := by
        simp only [escapeChar]
        rw [if_neg h34, if_neg h92, if_neg h8, if_neg h9, if_neg h10, if_neg h12,
          if_neg h13, if_pos hrange, if_neg hbmp]
      have hru : rawUnits c =
          [55296 + (c.toNat - 65536) / 1024, 56320 + (c.toNat - 65536) % 1024] := by
        simp [rawUnits, hbmp]
      have hup : c.toNat < 1114112 := by
        rcases hval with h | h
        · omega
        · exact h.2
      have hhi : 55296 + (c.toNat - 65536) / 1024 < 65536 := by omega
      have hlo : 56320 + (c.toNat - 65536) % 1024 < 65536 := by omega
      rw [hesc, hru]
      simp only [toHex4, List.length_cons, List.length_nil, List.cons_append,
        List.nil_append, List.append_assoc]
      show parseStrRaw (f + 2) _ = _
      rw [show f + 2 = (f + 1) + 1 from rfl,
        parseStrRaw_u (f + 1) _ _ hhi, parseStrRaw_u f _ _ hlo]
      cases parseStrRaw f rest <;> simp
  · have hesc : escapeChar c = [c] := by
      simp only [escapeChar]
      rw [if_neg h34, if_neg h92, if_neg h8, if_neg h9, if_neg h10, if_neg h12,
        if_neg h13, if_neg hrange]
    push_neg at hrange
    have hru : rawUnits c = [c.toNat] := by
      simp [rawUnits]
      omega
    have hc34 : ¬(c = '"') := fun h => h34 (by rw [h]; rfl)
    have hc92 : ¬(c = '\\') := fun h => h92 (by rw [h]; rfl)
    have hlt : ¬(c.toNat < 32) := by omega
    rw [hesc, hru]
    simp only [List.length_cons, List.length_nil, List.cons_append, List.nil_append]
    simp only [parseStrRaw]
    rw [if_neg hc34, if_neg hc92, if_neg hlt]


/-- A whole escaped string body followed by its closing quote parses back
to the flat raw code units, with slack fuel. -/
theorem parseStrRaw_escList (f : Nat) :
    ∀ (cs tail : List Char),
      parseStrRaw (f + (cs.flatMap rawUnits).length + 1) (escList cs ++ '"' :: tail) =
        some (cs.flatMap rawUnits, tail)
  | [], tail => by
    simp [escList, parseStrRaw]
  | c :: cs, tail => by
    have ih := parseStrRaw_escList f cs tail
    have hstep := parseStrRaw_esc (f + (cs.flatMap rawUnits).length + 1) c
      (escList cs ++ '"' :: tail)
    have hlen : f + ((c :: cs).flatMap rawUnits).length + 1 =
        (f + (cs.flatMap rawUnits).length + 1) + (rawUnits c).length := by
      simp [List.flatMap_cons]
      omega
    have hesc : escList (c :: cs) = escapeChar c ++ escList cs := by
      simp [escList]
    rw [hlen, hesc, List.append_assoc, hstep, ih]
    simp [List.flatMap_cons]

theorem rawUnits_ne_nil (c : Char) : rawUnits c ≠ [] := by
  unfold rawUnits
  split <;> simp

/-- Recombining the raw units of a character list gives it back: valid
characters are never surrogate halves, and an astral pair recombines. -/
theorem combineSurrogates_rawUnits :
    ∀ cs : List Char, combineSurrogates (cs.flatMap rawUnits) = cs
  | [] => rfl
  | c :: cs => by
    have hval := char_toNat_valid c
    have ih := combineSurrogates_rawUnits cs
    rw [List.flatMap_cons]
    by_cases hb : c.toNat < 65536
    · have hru : rawUnits c = [c.toNat] := by simp [rawUnits, hb]
      have hns : ¬(55296 ≤ c.toNat ∧ c.toNat ≤ 56319) := by omega
      rw [hru]
      cases hf : cs.flatMap rawUnits with
      | nil =>
        have hcs : cs = [] := by
          cases cs with
          | nil => rfl
          | cons d ds =>
            rw [List.flatMap_cons] at hf
            exact absurd (List.append_eq_nil.mp hf).1 (rawUnits_ne_nil d)
        subst hcs
        simp [combineSurrogates, Char.ofNat_toNat]
      | cons l rest2 =>
        show combineSurrogates (c.toNat :: l :: rest2) = c :: cs
        rw [combineSurrogates, if_neg (fun hcon => hns ⟨hcon.1, hcon.2.1⟩)]
        rw [← hf, ih, Char.ofNat_toNat]
    · have hup : c.toNat < 1114112 := by
        rcases hval with h | h
        · omega
        · exact h.2
      have hru : rawUnits c =
          [55296 + (c.toNat - 65536) / 1024, 56320 + (c.toNat - 65536) % 1024] := by
        simp [rawUnits, hb]
      have hhi1 : (c.toNat - 65536) / 1024 < 1024 := by omega
      have hlo1 : (c.toNat - 65536) % 1024 < 1024 := by omega
      rw [hru]
      show combineSurrogates (_ :: _ :: cs.flatMap rawUnits) = c :: cs
      rw [combineSurrogates, if_pos ⟨by omega, by omega, by omega, by omega⟩, ih]
      have harith : 65536 + (55296 + (c.toNat - 65536) / 1024 - 55296) * 1024 +
          (56320 + (c.toNat - 65536) % 1024 - 56320) = c.toNat := by
        have := Nat.div_add_mod (c.toNat - 65536) 1024
        omega
      rw [harith, Char.ofNat_toNat]

theorem escapeChar_length_ge (c : Char) :
    (rawUnits c).length ≤ (escapeChar c).length := by
  unfold rawUnits escapeChar
  dsimp only
  split <;> (repeat' split) <;> (try simp [toHex4]) <;> omega

/-- The string-body parser inverts the printer escaping, whatever follows
the closing quote. -/
theorem parseStrBody_escList (s tail : List Char) :
    parseStrBody (escList s ++ '"' :: tail) = some (s, tail) := by
  have hlen : (s.flatMap rawUnits).length ≤ (escList s).length := by
    induction s with
    | nil => simp [escList]
    | cons c cs ih =>
      rw [List.flatMap_cons, show escList (c :: cs) = escapeChar c ++ escList cs from by
        simp [escList]]
      simp only [List.length_append]
      have := escapeChar_length_ge c
      omega
  have hfuel : (escList s ++ '"' :: tail).length + 1 =
      ((escList s ++ '"' :: tail).length - (s.flatMap rawUnits).length) +
        (s.flatMap rawUnits).length + 1 := by
    simp only [List.length_append, List.length_cons]
    omega
  unfold parseStrBody
  rw [hfuel, parseStrRaw_escList _ s tail]
  simp [combineSurrogates_rawUnits]


/-! ## Claim C9 — the printer emits only ASCII -/

theorem hexDig_lt (n : Nat) : (hexDig n).toNat < 128 := by
  unfold hexDig
  by_cases h : n < hexDigits.length
  · have hall : ∀ c ∈ hexDigits, c.toNat < 128 := by decide
    exact hall _ (by rw [List.getD_eq_getElem _ _ h]; exact List.getElem_mem h)
  · rw [List.getD_eq_default _ _ (le_of_not_lt h)]
    decide

theorem escapeChar_ascii (c : Char) : ∀ x ∈ escapeChar c, x.toNat < 128 := by
  intro x hx
  by_cases h34 : c.toNat = 34
  · rw [show escapeChar c = ['\\', '"'] from by
      simp only [escapeChar]; rw [if_pos h34]] at hx
    simp at hx
    rcases hx with hx | hx <;> rw [hx] <;> decide
  by_cases h92 : c.toNat = 92
  · rw [show escapeChar c = ['\\', '\\'] from by
      simp only [escapeChar]; rw [if_neg h34, if_pos h92]] at hx
    simp at hx
    rw [hx]
    decide
  by_cases h8 : c.toNat = 8
  · rw [show escapeChar c = ['\\', 'b'] from by
      simp only [escapeChar]; rw [if_neg h34, if_neg h92, if_pos h8]] at hx
    simp at hx
    rcases hx with hx | hx <;> rw [hx] <;> decide
  by_cases h9 : c.toNat = 9
  · rw [show escapeChar c = ['\\', 't'] from by
      simp only [escapeChar]; rw [if_neg h34, if_neg h92, if_neg h8, if_pos h9]] at hx
    simp at hx
    rcases hx with hx | hx <;> rw [hx] <;> decide
  by_cases h10 : c.toNat = 10
  · rw [show escapeChar c = ['\\', 'n'] from by
      simp only [escapeChar]; rw [if_neg h34, if_neg h92, if_neg h8, if_neg h9, if_pos h10]] at hx
    simp at hx
    rcases hx with hx | hx <;> rw [hx] <;> decide
  by_cases h12 : c.toNat = 12
  · rw [show escapeChar c = ['\\', 'f'] from by
      simp only [escapeChar]
      rw [if_neg h34, if_neg h92, if_neg h8, if_neg h9, if_neg h10, if_pos h12]] at hx
    simp at hx
    rcases hx with hx | hx <;> rw [hx] <;> decide
  by_cases h13 : c.toNat = 13
  · rw [show escapeChar c = ['\\', 'r'] from by
      simp only [escapeChar]
      rw [if_neg h34, if_neg h92, if_neg h8, if_neg h9, if_neg h10, if_neg h12,
        if_pos h13]] at hx
    simp at hx
    rcases hx with hx | hx <;> rw [hx] <;> decide
  by_cases hrange : c.toNat < 32 ∨ 126 < c.toNat
  · by_cases hbmp : c.toNat < 65536
    · rw [show escapeChar c = '\\' :: 'u' :: toHex4 c.toNat from by
        simp only [escapeChar]
        rw [if_neg h34, if_neg h92, if_neg h8, if_neg h9, if_neg h10, if_neg h12,
          if_neg h13, if_pos hrange, if_pos hbmp]] at hx
      simp [toHex4] at hx
      rcases hx with hx | hx | hx | hx | hx | hx <;> rw [hx]
      · decide
      · decide
      · exact hexDig_lt _
      · exact hexDig_lt _
      · exact hexDig_lt _
      · exact hexDig_lt _
    · rw [show escapeChar c =
          ('\\' :: 'u' :: toHex4 (55296 + (c.toNat - 65536) / 1024)) ++
            ('\\' :: 'u' :: toHex4 (56320 + (c.toNat - 65536) % 1024)) from by
        simp only [escapeChar]
        rw [if_neg h34, if_neg h92, if_neg h8, if_neg h9, if_neg h10, if_neg h12,
          if_neg h13, if_pos hrange, if_neg hbmp]] at hx
      simp [toHex4] at hx
      rcases hx with hx | hx | hx | hx | hx | hx | hx | hx | hx | hx | hx | hx <;> rw [hx]
      · decide
      · decide
      · exact hexDig_lt _
      · exact hexDig_lt _
      · exact hexDig_lt _
      · exact hexDig_lt _
      · decide
      · decide
      · exact hexDig_lt _
      · exact hexDig_lt _
      · exact hexDig_lt _
      · exact hexDig_lt _
  · rw [show escapeChar c = [c] from by
      simp only [escapeChar]
      rw [if_neg h34, if_neg h92, if_neg h8, if_neg h9, if_neg h10, if_neg h12,
        if_neg h13, if_neg hrange]] at hx
    push_neg at hrange
    simp at hx
    rw [hx]
    omega

theorem escList_ascii (cs : List Char) : ∀ x ∈ escList cs, x.toNat < 128 := by
  intro x hx
  simp only [escList, List.mem_flatMap] at hx
  obtain ⟨c, _, hxc⟩ := hx
  exact escapeChar_ascii c x hxc

/-! ## Claim C9 — parsing back the printed last-evaluated key -/

/-- The shape of a `LastEvaluatedKey` for the cart table: its two string
key attributes. -/
def lekJson (u ik : String) : Json :=
  .obj [("userId", .str u), ("itemKey", .str ik)]

theorem strMkData (s : String) : String.mk s.data = s := rfl

theorem skipWs_cons_of (c : Char) (r : List Char) (h : isWsChar c = false) :
    skipWs (c :: r) = c :: r := by
  simp [skipWs, h]

theorem parseValue_str_sp (h : Nat) (s tail : List Char) :
    parseValue (h + 1) (' ' :: '"' :: (escList s ++ '"' :: tail)) =
      some (.str (String.mk s), tail) := by
  simp only [parseValue]
  rw [show skipWs (' ' :: '"' :: (escList s ++ '"' :: tail)) =
        '"' :: (escList s ++ '"' :: tail) from by simp [skipWs, isWsChar]]
  simp [parseStrBody_escList]

theorem parseMembers_one (h : Nat) (acc : List (String × Json)) (k2 v2 tail : List Char) :
    parseMembers (h + 1 + 1) acc
      (' ' :: '"' :: (escList k2 ++ '"' :: ':' :: ' ' :: '"' ::
        (escList v2 ++ '"' :: Char.ofNat 125 :: tail))) =
      some (Json.obj (objInsert acc (String.mk k2) (.str (String.mk v2))), tail) := by
  simp [parseMembers, parseStrBody_escList, skipWs, isWsChar, parseValue_str_sp,
    show isWsChar (Char.ofNat 125) = false from by decide,
    show ((Char.ofNat 125 : Char) = ',') = False from by decide,
    show ((Char.ofNat 125 : Char) = ':') = False from by decide]

theorem parseMembers_two (h : Nat) (acc : List (String × Json)) (k1 v1 k2 v2 tail : List Char) :
    parseMembers (h + 1 + 1 + 1) acc
      ('"' :: (escList k1 ++ '"' :: ':' :: ' ' :: '"' ::
        (escList v1 ++ '"' :: ',' :: ' ' :: '"' ::
          (escList k2 ++ '"' :: ':' :: ' ' :: '"' ::
            (escList v2 ++ '"' :: Char.ofNat 125 :: tail))))) =
      some (Json.obj (objInsert (objInsert acc (String.mk k1) (.str (String.mk v1)))
        (String.mk k2) (.str (String.mk v2))), tail) := by
  simp only [parseMembers]
  rw [skipWs_cons_of _ _ (by decide)]
  simp [parseStrBody_escList, skipWs, isWsChar, parseValue_str_sp, parseMembers_one,
    show isWsChar (Char.ofNat 125) = false from by decide,
    show ((Char.ofNat 125 : Char) = ',') = False from by decide,
    show ((Char.ofNat 125 : Char) = ':') = False from by decide]

theorem jsonPrintC_lek (u ik : String) :
    jsonPrintC (lekJson u ik) =
      Char.ofNat 123 :: '"' :: (escList "userId".data ++ '"' :: ':' :: ' ' :: '"' ::
        (escList u.data ++ '"' :: ',' :: ' ' :: '"' ::
          (escList "itemKey".data ++ '"' :: ':' :: ' ' :: '"' ::
            (escList ik.data ++ '"' :: Char.ofNat 125 :: [])))) := by
  simp [lekJson, jsonPrintC, printMember, printMembers, printStr]

theorem parseValue_lek (g : Nat) (u ik : String) :
    parseValue (g + 4) (jsonPrintC (lekJson u ik)) = some (lekJson u ik, []) := by
  rw [jsonPrintC_lek]
  rw [show g + 4 = (g + 3) + 1 from rfl]
  simp only [parseValue]
  rw [skipWs_cons_of _ _ (by decide)]
  simp only [show ((Char.ofNat 123 : Char) = '"') = False from by decide, if_false,
    show ((Char.ofNat 123 : Char) = Char.ofNat 123) = True from by simp, if_true]
  rw [skipWs_cons_of _ _ (by decide)]
  simp only [show (('"' : Char) = Char.ofNat 125) = False from by decide, if_false]
  rw [show g + 3 = g + 1 + 1 + 1 from rfl,
    parseMembers_two g [] "userId".data u.data "itemKey".data ik.data []]
  simp [lekJson, objInsert, strMkData]

theorem jsonParseC_print_lek (u ik : String) :
    jsonParseC (jsonPrintC (lekJson u ik)) = some (lekJson u ik) := by
  unfold jsonParseC
  rw [parseValue_lek (jsonPrintC (lekJson u ik)).length u ik]
  simp [skipWs]

theorem lekPrint_ascii (u ik : String) :
    ∀ c ∈ jsonPrintC (lekJson u ik), c.toNat < 128 := by
  rw [jsonPrintC_lek]
  intro c hc
  simp only [List.mem_cons, List.mem_append] at hc
  casesm* _ ∨ _
  all_goals subst_vars
  all_goals first
    | decide
    | exact absurd (by assumption) (List.not_mem_nil c)
    | exact escList_ascii _ _ (by assumption)

theorem decodeCursor_encodeCursor (u ik : String) :
    decodeCursor (encodeCursor (lekJson u ik)) = some (lekJson u ik) := by
  have hascii := lekPrint_ascii u ik
  unfold decodeCursor encodeCursor
  rw [show (String.mk (b64encode (utf8Encode (jsonPrintC (lekJson u ik))))).data =
        b64encode (utf8Encode (jsonPrintC (lekJson u ik))) from rfl]
  rw [utf8Encode_ascii _ hascii]
  rw [b64decode_encode _ (by
    intro b hb
    simp only [List.mem_map] at hb
    obtain ⟨c, hc, rfl⟩ := hb
    have := hascii c hc
    omega)]
  rw [show (some ((jsonPrintC (lekJson u ik)).map Char.toNat) >>= fun bytes =>
        utf8Decode bytes >>= fun chars => jsonParseC chars) =
      (utf8Decode ((jsonPrintC (lekJson u ik)).map Char.toNat) >>= fun chars =>
        jsonParseC chars) from rfl]
  rw [utf8Decode_map_toNat _ hascii]
  simp [jsonParseC_print_lek]

/-- C9: the pagination cursor round-trips exactly — for every last-evaluated
key the store produces (its two string key attributes, arbitrary strings),
encoding it and decoding the cursor yields the identical key; the
cart-listing response carries exactly that encoding as `nextCursor`; and a
cursor that cannot be decoded is answered with `INVALID_CURSOR` (HTTP 400)
rather than a crash. -/
theorem cart_cursor_roundtrip (u ik : String) (ev : Event)
    (query : Option Json → QueryResult) (sub : Json)
    (hauth : getUserId ev = .ok sub) :
    decodeCursor (encodeCursor (lekJson u ik)) = some (lekJson u ik) ∧
    (∀ s : String, queryParam ev.queryStringParameters "cursor" = some (.str s) →
      s ≠ "" → decodeCursor s = none →
      cartGetHandler query ev =
        createErrorResponse 400 "INVALID_CURSOR" "Invalid pagination cursor") ∧
    (∀ k : Json, queryParam ev.queryStringParameters "cursor" = none →
      (query none).lastEvaluatedKey = some k →
      cartGetHandler query ev =
        createResponse 200 (Json.obj
          [("items", .arr (query none).items),
           ("nextCursor", .str (encodeCursor k))])) := by
  refine ⟨decodeCursor_encodeCursor u ik, ?_, ?_⟩
  · intro s hq hne hdec
    simp [cartGetHandler, hauth, hq, hdec, Json.truthy, hne]
  · intro k hq hk
    simp [cartGetHandler, hauth, hq, hk]

def w9Query : Option Json → QueryResult := fun _ => ⟨[], some (lekJson "u-1" "acme#p1")⟩

def w9BadEvent : Event :=
  mkEvent "GET" "/cart" (wAuthCtx "user-9") none (Json.obj [("cursor", Json.str "!!!")]) []

set_option maxRecDepth 100000 in
theorem cart_cursor_roundtrip_witness :
    decodeCursor (encodeCursor (lekJson "u-1" "acme#p1")) = some (lekJson "u-1" "acme#p1") ∧
    cartGetHandler w9Query w9BadEvent =
      createErrorResponse 400 "INVALID_CURSOR" "Invalid pagination cursor" :=
  ⟨(cart_cursor_roundtrip "u-1" "acme#p1" w9BadEvent w9Query (Json.str "user-9") rfl).1,
   (cart_cursor_roundtrip "u-1" "acme#p1" w9BadEvent w9Query (Json.str "user-9") rfl).2.1
     "!!!" rfl (by decide) rfl⟩
